import Mathlib

/-!
Shallow embedding of the coinjoin-engine Bitcoin forensics core
(package `heuristics`, plus the shadow evaluator), translated from the Go
sources under `internal/heuristics`, `internal/shadow`, `internal/cuda` and
`pkg/models`.

Modelling conventions:
* Go `int64`/`int` become `ℤ` (or `ℕ` for counts, bit flags and `uint32`
  fields); no arithmetic here approaches the 64-bit range, so wrap-around
  is never observable and is not modelled.
* Go `float64` values become `ℚ` computed with exact arithmetic.  All
  float constants in the source (0.3, 0.25, 150.0, …) are short decimal
  literals and every comparison/truncation the pipeline performs is far
  from the sub-ulp error of IEEE doubles on these values, so exact
  rationals decide every branch exactly as the compiled program does.
  Conversions `int64(x)` are modelled by truncation toward zero
  (`goTrunc`), `math.Round` by round-half-away-from-zero (`ratRound`).
* The two genuinely transcendental values (`math.Log10` inside
  `ProbToLLR`, used only to label evidence edges, and `math.Pow` in the
  propagation decay) are modelled over `ℝ` with `Real.logb`/`rpow`.
* The Boltzmann-entropy float `math.Log2(interpretations)` is carried via
  the integer `interpretations`; every comparison the pipeline makes on
  the (2-decimal-rounded) entropy value is an exact threshold on the
  interpretation count (`entropy ≥ 4.0 ↔ count ≥ 16`,
  `entropy ≤ 0.5 ↔ count ≤ 1`), and the additive uses of it are floors of
  `k·log2 count` computed exactly with `Nat.log2`.  The purely
  diagnostic float fields (`MaxEntropy`, `Efficiency`,
  `OutputValueEntropy`) that no code path reads back are not carried.
* Go map iteration order is unspecified; wherever the source takes a
  strict maximum while ranging over a map, the embedding scans candidates
  in first-occurrence (or declaration) order, so ties are broken
  deterministically.  Theorems about such selections either avoid ties or
  are stated about the embedded tie-break.
* `uuid.New()` inside `createEdge` is modelled by an injected stream of
  identifiers `ids : ℕ → String`; the process-global taint map is passed
  explicitly as an association list.
* `strings.TrimSpace` is modelled on ASCII whitespace; the DP bitset
  array `dp[s]` is modelled by the set of subset sums (they coincide for
  the non-negative satoshi values the solver receives).
-/

set_option maxRecDepth 100000
set_option maxHeartbeats 2000000
set_option exponentiation.threshold 3000000

-- ===================================================================
-- Small Go-semantics helpers
-- ===================================================================

/-- Go's `min` helper on ints (ssmp.go). -/
def goMin (a b : ℤ) : ℤ := if a < b then a else b

/-- Go conversion `int64(x)` / `int(x)` of a float: truncation toward zero. -/
def goTrunc (q : ℚ) : ℤ := if 0 ≤ q then Rat.floor q else -Rat.floor (-q)

/-- Go `math.Round`: round half away from zero. -/
def ratRound (q : ℚ) : ℤ := if 0 ≤ q then Rat.floor (q + 1/2) else -Rat.floor (-q + 1/2)

/-- `math.Round(x*100)/100` — the 2-decimal rounding used all over the source. -/
def round2 (q : ℚ) : ℚ := (ratRound (q * 100) : ℚ) / 100

/-- `math.Round(x*10000)/10000`. -/
def round4 (q : ℚ) : ℚ := (ratRound (q * 10000) : ℚ) / 10000

/-- `math.Round(x*1000)/1000`. -/
def round3 (q : ℚ) : ℚ := (ratRound (q * 1000) : ℚ) / 1000

/-- ASCII lower-casing of one character (`strings.ToLower` on the hex/ASCII
strings this code base handles). -/
def lowerChar (c : Char) : Char :=
  if 'A' ≤ c ∧ c ≤ 'Z' then Char.ofNat (c.toNat + 32) else c

/-- `strings.ToLower` (ASCII). -/
def strLower (s : String) : String := ⟨s.data.map lowerChar⟩

/-- `strings.HasPrefix`. -/
def strStarts (s pre : String) : Bool := pre.data.isPrefixOf s.data

/-- `strings.Contains` (substring search). -/
def strContainsSub (s sub : String) : Bool :=
  let rec go : List Char → Bool
    | [] => sub.data.isPrefixOf []
    | c :: t => sub.data.isPrefixOf (c :: t) || go t
  go s.data

/-- `strings.LastIndex` (byte index of last occurrence, −1 if absent);
the strings handled here are ASCII so byte = char positions. -/
def strLastIndex (s sub : String) : ℤ :=
  let n := s.data.length
  let rec go : List Char → ℕ → ℤ → ℤ
    | [], _, best => best
    | c :: t, i, best =>
        go t (i + 1) (if sub.data.isPrefixOf (c :: t) then (i : ℤ) else best)
  if sub.data.length = 0 then (n : ℤ) else go s.data 0 (-1)

/-- `strings.TrimSpace` (ASCII whitespace). -/
def strTrim (s : String) : String :=
  let ws := fun c => c = ' ' ∨ c = '\t' ∨ c = '\n' ∨ c = '\r'
  ⟨((s.data.dropWhile (fun c => decide (ws c))).reverse.dropWhile
      (fun c => decide (ws c))).reverse⟩

/-- Character slice `s[a:b]` of a Go (ASCII) string. -/
def strSlice (s : String) (a b : ℕ) : String := ⟨(s.data.drop a).take (b - a)⟩

/-- Distinct values of a list in first-occurrence order (deterministic
stand-in for ranging over the keys of a Go map built by appending). -/
def keysIn {α : Type} [DecidableEq α] (l : List α) : List α :=
  l.foldl (fun acc g => if g ∈ acc then acc else acc ++ [g]) []

/-- All subset sums of a list of values (the exact contents of the Go
boolean DP array / MitM enumeration for non-negative values). -/
def subsetSums (l : List ℤ) : List ℤ :=
  l.foldl (fun acc v => acc ++ acc.map (· + v)) [0]

/-- Insertion of one element into an ascending list. -/
def insertAsc (v : ℤ) : List ℤ → List ℤ
  | [] => [v]
  | x :: t => if v ≤ x then v :: x :: t else x :: insertAsc v t

/-- Sort a list of ints ascending (`sort.Slice` by value; only the
multiset of values is consumed afterwards). -/
def sortAsc (l : List ℤ) : List ℤ := l.foldr insertAsc []

/-- Sort descending. -/
def sortDesc (l : List ℤ) : List ℤ := (sortAsc l).reverse

/-- Decimal digits of a natural number (fuel-based so the kernel can
evaluate it). -/
def natDigitsAux : ℕ → ℕ → List Char
  | 0, _ => []
  | fuel + 1, n =>
      if n = 0 then []
      else natDigitsAux fuel (n / 10) ++
        [(['0', '1', '2', '3', '4', '5', '6', '7', '8', '9']).getD (n % 10) '0']

/-- Decimal rendering of a natural number (Go `%d`). -/
def natDec (n : ℕ) : String := if n = 0 then "0" else ⟨natDigitsAux 30 n⟩

/-- Zero-padded 6-digit rendering (fractional part of Go `%f`). -/
def pad6 (n : ℕ) : String :=
  let ds := if n = 0 then [] else natDigitsAux 30 n
  ⟨List.replicate (6 - ds.length) '0' ++ ds⟩

-- ===================================================================
-- SHA-256 (crypto/sha256), computable over byte lists
-- ===================================================================

/-- Truncation to 32 bits. -/
def u32 (n : ℕ) : ℕ := n % 4294967296

/-- 32-bit rotate right. -/
def rotr32 (x n : ℕ) : ℕ := u32 ((x >>> n) ||| (x <<< (32 - n)))

/-- 32-bit complement. -/
def not32 (x : ℕ) : ℕ := 4294967295 - u32 x

def sSig0 (x : ℕ) : ℕ := (rotr32 x 7) ^^^ (rotr32 x 18) ^^^ (x >>> 3)

def sSig1 (x : ℕ) : ℕ := (rotr32 x 17) ^^^ (rotr32 x 19) ^^^ (x >>> 10)

def bSig0 (x : ℕ) : ℕ := (rotr32 x 2) ^^^ (rotr32 x 13) ^^^ (rotr32 x 22)

def bSig1 (x : ℕ) : ℕ := (rotr32 x 6) ^^^ (rotr32 x 11) ^^^ (rotr32 x 25)

def chF (e f g : ℕ) : ℕ := (e &&& f) ^^^ ((not32 e) &&& g)

def majF (a b c : ℕ) : ℕ := (a &&& b) ^^^ (a &&& c) ^^^ (b &&& c)

def sha256K : List ℕ :=
  [1116352408, 1899447441, 3049323471, 3921009573,
   961987163, 1508970993, 2453635748, 2870763221,
   3624381080, 310598401, 607225278, 1426881987,
   1925078388, 2162078206, 2614888103, 3248222580,
   3835390401, 4022224774, 264347078, 604807628,
   770255983, 1249150122, 1555081692, 1996064986,
   2554220882, 2821834349, 2952996808, 3210313671,
   3336571891, 3584528711, 113926993, 338241895,
   666307205, 773529912, 1294757372, 1396182291,
   1695183700, 1986661051, 2177026350, 2456956037,
   2730485921, 2820302411, 3259730800, 3345764771,
   3516065817, 3600352804, 4094571909, 275423344,
   430227734, 506948616, 659060556, 883997877,
   958139571, 1322822218, 1537002063, 1747873779,
   1955562222, 2024104815, 2227730452, 2361852424,
   2428436474, 2756734187, 3204031479, 3329325298]

def sha256H0 : List ℕ :=
  [1779033703, 3144134277, 1013904242, 2773480762,
   1359893119, 2600822924, 528734635, 1541459225]

def be64 (n : ℕ) : List ℕ :=
  [u32 (n >>> 56) % 256, (n >>> 48) % 256, (n >>> 40) % 256, (n >>> 32) % 256,
   (n >>> 24) % 256, (n >>> 16) % 256, (n >>> 8) % 256, n % 256]

def padBytes (m : List ℕ) : List ℕ :=
  let L := m.length
  let zeros := (119 - (L % 64)) % 64
  m ++ [128] ++ List.replicate zeros 0 ++ be64 (8 * L)

def chunks64Aux : ℕ → List ℕ → List (List ℕ)
  | 0, _ => []
  | _, [] => []
  | fuel + 1, l => l.take 64 :: chunks64Aux fuel (l.drop 64)

def chunks64 (l : List ℕ) : List (List ℕ) := chunks64Aux l.length l

def blockWords (b : List ℕ) : List ℕ :=
  (List.range 16).map fun i =>
    (b.getD (4 * i) 0) * 16777216 + (b.getD (4 * i + 1) 0) * 65536 +
    (b.getD (4 * i + 2) 0) * 256 + b.getD (4 * i + 3) 0

def extendWords (w : List ℕ) : List ℕ :=
  (List.range 48).foldl (fun w i =>
    w ++ [u32 (sSig1 (w.getD (i + 14) 0) + w.getD (i + 9) 0 +
               sSig0 (w.getD (i + 1) 0) + w.getD i 0)]) w

def sha256Round (ws : List ℕ) (st : List ℕ) (i : ℕ) : List ℕ :=
  let a := st.getD 0 0
  let b := st.getD 1 0
  let c := st.getD 2 0
  let d := st.getD 3 0
  let e := st.getD 4 0
  let f := st.getD 5 0
  let g := st.getD 6 0
  let h := st.getD 7 0
  let t1 := u32 (h + bSig1 e + chF e f g + sha256K.getD i 0 + ws.getD i 0)
  let t2 := u32 (bSig0 a + majF a b c)
  [u32 (t1 + t2), a, b, c, u32 (d + t1), e, f, g]

def sha256Block (h : List ℕ) (b : List ℕ) : List ℕ :=
  let ws := extendWords (blockWords b)
  let st := (List.range 64).foldl (sha256Round ws) h
  List.zipWith (fun x y => u32 (x + y)) h st

def sha256Words (m : List ℕ) : List ℕ :=
  (chunks64 (padBytes m)).foldl sha256Block sha256H0

def hexChar (n : ℕ) : Char :=
  Char.ofNat (if n < 10 then 48 + n else 87 + n % 16)

def wordHex (w : ℕ) : List Char :=
  [hexChar ((w >>> 28) % 16), hexChar ((w >>> 24) % 16), hexChar ((w >>> 20) % 16),
   hexChar ((w >>> 16) % 16), hexChar ((w >>> 12) % 16), hexChar ((w >>> 8) % 16),
   hexChar ((w >>> 4) % 16), hexChar (w % 16)]

def strBytes (s : String) : List ℕ := s.data.map Char.toNat

/-- `hex.EncodeToString(sha256.Sum256(payload))` for an ASCII payload. -/
def sha256Hex (s : String) : String :=
  ⟨(sha256Words (strBytes s)).foldr (fun w acc => wordHex w ++ acc) []⟩

-- ===================================================================
-- Data model (pkg/models/transaction.go)
-- ===================================================================

/-- `models.TxIn`. -/
structure TxIn where
  txid : String
  vout : ℕ
  value : ℤ
  address : String
  scriptSig : String
  sequence : ℕ
deriving DecidableEq, Repr

/-- `models.TxOut`. -/
structure TxOut where
  value : ℤ
  address : String
  scriptPubKey : String
deriving DecidableEq, Repr

/-- Go zero-value `TxIn` (out-of-range indexing never occurs in the
embedded code paths; `default` only discharges `getD`). -/
instance : Inhabited TxIn :=
  ⟨{ txid := "", vout := 0, value := 0, address := "", scriptSig := "", sequence := 0 }⟩

/-- Go zero-value `TxOut`. -/
instance : Inhabited TxOut :=
  ⟨{ value := 0, address := "", scriptPubKey := "" }⟩

/-- `models.Transaction`. -/
structure Transaction where
  txid : String
  inputs : List TxIn
  outputs : List TxOut
  fee : ℤ
  weight : ℤ
  vsize : ℤ
  lockTime : ℕ
  version : ℤ
  blockHeight : ℤ
  blockTime : ℤ
deriving DecidableEq, Repr

/-- `models.EvidenceEdge`, generic in the numeric type carrying the Go
`float64` LLR score (instantiated at `ℝ`). -/
structure EvidenceEdge (α : Type) where
  edgeID : String
  createdHeight : ℤ
  srcNodeID : String
  dstNodeID : String
  edgeType : ℕ
  llrScore : α
  dependencyGroup : ℕ
  snapshotID : ℕ
  auditHash : String

/-- `models.InferenceResult`. -/
structure InferenceResult (α : Type) where
  posteriorLLR : α
  confidenceLevel : String
  discountedEdges : ℕ
  totalEdges : ℕ
  effectiveFactors : ℕ

/-- `models.ChangeOutput`. -/
structure ChangeOutput where
  index : ℤ
  confidence : ℚ
  method : String
  isRoundPayment : Bool
deriving DecidableEq, Repr

/-- `models.EntropyResult`.  The float fields `Entropy`, `MaxEntropy`,
`Efficiency` are functions of `interpretations` (and of the I/O shape);
the pipeline only ever reads `Entropy` back, through exact threshold
comparisons and floors, which are expressed directly on
`interpretations` at the use sites (see the header comment). -/
structure EntropyResult where
  level : String
  interpretations : ℕ
deriving DecidableEq, Repr

/-- `models.FeeAnalysisResult`. -/
structure FeeAnalysisResult where
  feeRate : ℚ
  feeRateClass : String
  roundingPattern : String
  walletHint : String
  overpayRatio : ℚ
  unnecessaryInputs : ℕ
deriving DecidableEq, Repr

/-- `models.PeelChainResult`. -/
structure PeelChainResult where
  isChain : Bool
  chainLength : ℕ
  direction : String
  confidence : ℚ
  previousTxid : String
  changeIndex : ℤ
deriving DecidableEq, Repr

/-- `models.DustResult`. -/
structure DustResult where
  hasDustOutputs : Bool
  hasDustInputs : Bool
  dustOutputCount : ℕ
  dustInputCount : ℕ
  totalDustValue : ℤ
  intent : String
  riskLevel : String
deriving DecidableEq, Repr

/-- `models.UnmixResult`. -/
structure UnmixResult where
  unmixableOutputs : ℕ
  totalOutputs : ℕ
  deterministicLinks : ℕ
  linkabilityScore : ℚ
  weakParticipants : ℕ
  mixQuality : String
deriving DecidableEq, Repr

/-- `models.TopologyResult`. -/
structure TopologyResult where
  shape : String
  fanIn : ℕ
  fanOut : ℕ
  ioSymmetry : ℚ
  giniCoefficient : ℚ
  isHub : Bool
  valueConcentration : String
deriving DecidableEq, Repr

/-- `models.ScoreBreakdown`. -/
structure ScoreBreakdown where
  baseScore : ℤ
  anonSetFactor : ℤ
  entropyFactor : ℤ
  changeDetection : ℤ
  walletLeakage : ℤ
  peelChainPenalty : ℤ
  dustRisk : ℤ
  topologyPenalty : ℤ
  unmixPenalty : ℤ
  addressReuse : ℤ
  traceability : ℚ
deriving DecidableEq, Repr

/-- `models.UTXOAgeResult`. -/
structure UTXOAgeResult where
  avgAgeDays : ℚ
  maxAgeDays : ℚ
  minAgeDays : ℚ
  coinDaysDestroyed : ℚ
  holdingPattern : String
  hasAncientUTXO : Bool
deriving DecidableEq, Repr

/-- `models.ValuePatternResult` (the write-only Shannon-entropy float of
the output value distribution is not carried; nothing reads it). -/
structure ValuePatternResult where
  hasRoundBTC : Bool
  hasRoundSats : Bool
  knownServiceFee : String
  dominantDenomination : ℤ
  uniqueValueRatio : ℚ
deriving DecidableEq, Repr

/-- `models.ScriptAnalysis`. -/
structure ScriptAnalysis where
  hasMultisig : Bool
  multisigM : ℕ
  multisigN : ℕ
  hasHTLC : Bool
  hasOPReturn : Bool
  opReturnProtocol : String
  opReturnSize : ℕ
  dominantWitness : String
  tapscriptDepth : ℕ
deriving DecidableEq, Repr

/-- `models.PrivacyAnalysisResult`. -/
structure PrivacyAnalysisResult where
  txid : String
  privacyScore : ℤ
  anonSet : ℤ
  heuristicFlags : ℕ
  edges : List (EvidenceEdge ℝ)
  inference : Option (InferenceResult ℝ)
  changeOutput : Option ChangeOutput
  walletFamily : String
  whirlpoolPool : String
  entropy : Option EntropyResult
  feeAnalysis : Option FeeAnalysisResult
  peelChain : Option PeelChainResult
  dustAnalysis : Option DustResult
  unmixResult : Option UnmixResult
  topology : Option TopologyResult
  scoreBreakdown : Option ScoreBreakdown
  utxoAge : Option UTXOAgeResult
  valuePattern : Option ValuePatternResult
  scriptInfo : Option ScriptAnalysis

-- ===================================================================
-- Flags, edge types, dependency groups (llr_engine.go)
-- ===================================================================

def EdgeTypeCIOH : ℕ := 1
def EdgeTypeChange : ℕ := 2
def EdgeTypeCIOHInvalidated : ℕ := 3
def EdgeTypeCoinjoinSuspected : ℕ := 4
def EdgeTypePayJoinSuspect : ℕ := 5
def EdgeTypePeelChain : ℕ := 6
def EdgeTypeFeeCorrelation : ℕ := 7
def EdgeTypeDustLink : ℕ := 8
def EdgeTypeUnmixLink : ℕ := 9
def EdgeTypeTransitive : ℕ := 10

def DepGroupNone : ℕ := 0
def DepGroupScriptHomogeneity : ℕ := 1
def DepGroupValueConstraints : ℕ := 2
def DepGroupCoordination : ℕ := 3
def DepGroupTemporalSignals : ℕ := 4
def DepGroupFeePatterns : ℕ := 5
def DepGroupTopology : ℕ := 6

def FlagIsSegWit : ℕ := 2 ^ 0
def FlagIsTaproot : ℕ := 2 ^ 1
def FlagHasSchnorrSig : ℕ := 2 ^ 2
def FlagIsWhirlpoolStruct : ℕ := 2 ^ 3
def FlagLikelyChange : ℕ := 2 ^ 10
def FlagLikelyCollabConstruct : ℕ := 2 ^ 11
def FlagAddressReuse : ℕ := 2 ^ 12
def FlagHasRoundPayment : ℕ := 2 ^ 13
def FlagIsConsolidation : ℕ := 2 ^ 14
def FlagIsBIP69 : ℕ := 2 ^ 15
def FlagHighEntropy : ℕ := 2 ^ 16
def FlagSuspiciousFeePattern : ℕ := 2 ^ 17
def FlagIsPeelChain : ℕ := 2 ^ 18
def FlagTimingAnomaly : ℕ := 2 ^ 19
def FlagIsMuSig2Suspect : ℕ := 2 ^ 20
def FlagIsPayjoinSuspect : ℕ := 2 ^ 21
def FlagIsSilentPayment : ℕ := 2 ^ 22
def FlagIsWasabiSuspect : ℕ := 2 ^ 23
def FlagIsJoinMarketBond : ℕ := 2 ^ 24
def FlagDustAttackSuspect : ℕ := 2 ^ 25
def FlagWeakMix : ℕ := 2 ^ 26
def FlagIsHubTransaction : ℕ := 2 ^ 27
def FlagDustConsolidation : ℕ := 2 ^ 28
def FlagHighTraceability : ℕ := 2 ^ 29
def FlagAncientUTXO : ℕ := 2 ^ 30
def FlagKnownServicePattern : ℕ := 2 ^ 31
def FlagIsMultisig : ℕ := 2 ^ 32
def FlagHasOPReturn : ℕ := 2 ^ 33
def FlagPostMixLeakage : ℕ := 2 ^ 34
def FlagBotBehavior : ℕ := 2 ^ 35
def FlagHighRisk : ℕ := 2 ^ 36
def FlagLightningChannel : ℕ := 2 ^ 37
def FlagIsCoinbase : ℕ := 2 ^ 38
def FlagStrategicConsolidation : ℕ := 2 ^ 39

/-- `CurrentSnapshotID` (llr_engine.go). -/
def CurrentSnapshotID : ℕ := 202602235

-- ===================================================================
-- Address classification (change_detection.go / wallet_fingerprint.go)
-- ===================================================================

/-- `classifyAddressType` (change_detection.go). -/
def classifyAddressType (addr : String) : String :=
  if addr = "" then ""
  else if strStarts addr "bc1p" then "p2tr"
  else if strStarts addr "bc1q" then "p2wpkh"
  else if strStarts addr "3" then "p2sh"
  else if strStarts addr "1" then "p2pkh"
  else if strStarts addr "tb1p" then "p2tr"
  else if strStarts addr "tb1q" then "p2wpkh"
  else "unknown"

/-- `detectAddressType` (wallet_fingerprint.go). -/
def detectAddressType (addr : String) : String :=
  let t := classifyAddressType addr
  if t = "p2tr" then "taproot"
  else if t = "p2wpkh" then "segwit"
  else if t = "p2sh" then "p2sh-segwit"
  else if t = "p2pkh" then "legacy"
  else "unknown"

/-- `isRoundAmount` (change_detection.go). -/
def isRoundAmount (sats : ℤ) : Bool :=
  if sats ≤ 0 then false
  else
    [100000000, 50000000, 10000000, 5000000, 1000000,
     500000, 100000, 50000, 10000].any (fun d => decide (sats % d = 0))

-- ===================================================================
-- Subset-sum solver portfolio (ssmp.go / dp_solver.go / SolveCPSAT /
-- cuda_matcher_cpu.go)
-- ===================================================================

/-- The fee rate used by `CalculateAnonSet` (ssmp.go lines 18-21); the
`feeRate <= 0` fallback to 1.0 as in the source.  (For `vsize = 0` the Go
float division produces Inf/NaN with implementation-defined conversion
behaviour; theorems about the fee rate therefore assume `vsize > 0`.) -/
def anonSetFeeRate (fee vsize : ℤ) : ℚ :=
  let r : ℚ := (fee : ℚ) / (vsize : ℚ)
  if r ≤ 0 then 1 else r

/-- The fast-path fee tolerance `tau` of the MitM loop (ssmp.go lines
95-98): `int64(feeRate*150)` floored at 1000 sats. -/
def fastTau (fee vsize : ℤ) : ℤ :=
  let t := goTrunc (anonSetFeeRate fee vsize * 150)
  if t < 1000 then 1000 else t

/-- The tolerance handed to the escalation solvers (ssmp.go lines 154 and
161): `int64(feeRate*150.0)` with NO 1000-sat floor. -/
def escTau (fee vsize : ℤ) : ℤ := goTrunc (anonSetFeeRate fee vsize * 150)

/-- `countEqualOutputs` (ssmp.go): multiplicity of the modal output value. -/
def countEqualOutputs (outputs : List TxOut) : ℕ :=
  let vals := outputs.map (·.value)
  (keysIn vals).foldl (fun best v => if vals.count v > best then vals.count v else best) 0

/-- The modal output value and its multiplicity (`mixDenomination`,
`maxEqualOutputs` in ssmp.go); candidates are scanned in first-occurrence
order, so among tied multiplicities the first-seen value wins (Go ranges
over a map here, so its choice among ties is unspecified). -/
def modalOutput (outputs : List TxOut) : ℤ × ℕ :=
  let vals := outputs.map (·.value)
  (keysIn vals).foldl
    (fun best v => if vals.count v > best.2 then (v, vals.count v) else best) (0, 0)

/-- `hasMatchingInputSubsetMitM` (ssmp.go): is some subset sum of `vals`
inside `[target−tau, target]`?  The Go code enumerates the two halves'
bitmasks; the embedding enumerates the same two sets of subset sums. -/
def hasMatchingInputSubsetMitM (vals : List ℤ) (target tau : ℤ) : Bool :=
  let mid := vals.length / 2
  let leftSums := subsetSums (vals.take mid)
  let rightSums := subsetSums (vals.drop mid)
  rightSums.any fun r => leftSums.any fun l =>
    decide (target - tau ≤ l + r ∧ l + r ≤ target)

/-- `isSubsetSumDP` (dp_solver.go): the DP array `dp[s]` holds exactly
the subset sums of the (non-negative) output values, so the range scan
over `[max 0 (target−tau), min maxSum (target+tau)]` is an existence
check against that set. -/
def isSubsetSumDP (values : List ℤ) (target tau maxSum : ℤ) : Bool :=
  if target - tau > maxSum then false
  else
    let lower := if target - tau < 0 then 0 else target - tau
    let upper := if target + tau > maxSum then maxSum else target + tau
    (subsetSums values).any fun s => decide (lower ≤ s ∧ s ≤ upper)

/-- `SolveDPBitset` (dp_solver.go).  Note: no floor is applied to `tau`
here. -/
def SolveDPBitset (inputs outputs : List ℤ) (tau : ℤ) : ℤ :=
  if inputs.length = 0 ∨ outputs.length = 0 then 0
  else
    let maxSum := outputs.sum
    if maxSum > 500000 then 0
    else ((inputs.countP fun v => isSubsetSumDP outputs v tau maxSum : ℕ) : ℤ)

/-- `countValidPartitions` (SolveCPSAT helper): `assignment` maps each
output index to an input index (or −1 for unassigned). -/
def countValidPartitions (inputs outputs : List ℤ) (assignment : List ℤ) (tau : ℤ) : ℕ :=
  let nIn := inputs.length
  (List.range nIn).countP fun (i : ℕ) =>
    let assigned := (assignment.zip outputs).filter (fun p => decide (p.1 = (i : ℤ)))
    let s := (assigned.map (·.2)).sum
    !assigned.isEmpty &&
      decide (inputs.getD i 0 - tau ≤ s ∧ s ≤ inputs.getD i 0 + tau)

/-- `solveRecursive` (SolveCPSAT helper): backtracking over the remaining
outputs; `acc` is the assignment so far (in output order), the result is
the best `countValidPartitions` over all complete assignments that
survive the partial-sum pruning. -/
def solveRecursive (inputs outputs : List ℤ) (tau : ℤ) :
    List ℤ → List ℤ → ℕ
  | acc, [] => countValidPartitions inputs outputs acc tau
  | acc, _o :: rest =>
      let branches := (List.range inputs.length).filterMap fun (i : ℕ) =>
        let partialSum := ((acc ++ [(i : ℤ)]).zip
            (outputs.take (acc.length + 1))).foldl
          (fun s p => if p.1 = (i : ℤ) then s + p.2 else s) 0
        if partialSum > inputs.getD i 0 + tau then none
        else some (solveRecursive inputs outputs tau (acc ++ [(i : ℤ)]) rest)
      let skip := solveRecursive inputs outputs tau (acc ++ [(-1 : ℤ)]) rest
      (branches ++ [skip]).foldl (fun best r => if r > best then r else best) 0

/-- `SolveCPSAT` (constraint-propagation fallback lane).  Note: this lane
DOES floor its tolerance at 1000 sats internally. -/
def SolveCPSAT (inputs outputs : List ℤ) (tau : ℤ) : ℤ :=
  if inputs.length * outputs.length > 100 then 0
  else if inputs.length = 0 ∨ outputs.length = 0 then 0
  else
    let tau := if tau < 1000 then 1000 else tau
    ((solveRecursive inputs outputs tau [] outputs : ℕ) : ℤ)

/-- `CalculateAnonSet` (ssmp.go). -/
def CalculateAnonSet (inputs : List TxIn) (outputs : List TxOut)
    (txFee txVsize : ℤ) : ℤ :=
  if inputs.length = 0 ∨ outputs.length = 0 then 0
  else if inputs.length > 15 ∨ outputs.length > 15 then
    (countEqualOutputs outputs : ℤ)
  else
    let inputVals := inputs.map (·.value)
    let outputVals := outputs.map (·.value)
    let m := modalOutput outputs
    let mixDenomination := m.1
    let maxEqualOutputs := m.2
    if maxEqualOutputs ≤ 1 then 0
    else
      let prunedInputVals := inputVals.filter (fun v => decide (¬ v < mixDenomination))
      let tau := fastTau txFee txVsize
      let validLinkages : ℕ := prunedInputVals.countP fun inVal =>
        if inVal < mixDenomination then false
        else
          let target := inVal - mixDenomination
          if target ≤ tau ∧ 0 ≤ target then true
          else hasMatchingInputSubsetMitM outputVals target tau
      let maxAnonSet : ℤ := (validLinkages : ℤ)
      let maxAnonSet := if maxAnonSet > (maxEqualOutputs : ℤ) then (maxEqualOutputs : ℤ) else maxAnonSet
      let maxAnonSet := if maxAnonSet > (inputs.length : ℤ) then (inputs.length : ℤ) else maxAnonSet
      if maxAnonSet = 1 ∧ maxEqualOutputs > 1 then
        let sumOutputs := outputVals.sum
        let escalated :=
          if sumOutputs ≤ 500000 then SolveDPBitset prunedInputVals outputVals (escTau txFee txVsize)
          else SolveCPSAT prunedInputVals outputVals (escTau txFee txVsize)
        let maxAnonSet := if escalated > maxAnonSet then escalated else maxAnonSet
        let maxAnonSet := if maxAnonSet > (maxEqualOutputs : ℤ) then (maxEqualOutputs : ℤ) else maxAnonSet
        let maxAnonSet := if maxAnonSet > (inputs.length : ℤ) then (inputs.length : ℤ) else maxAnonSet
        maxAnonSet
      else maxAnonSet

/-- Modelled from the spec (§4.2): the same solver with the spec's single
tolerance `τ = max(1000, round(feeRate·150))` used in EVERY branch,
including the tolerance handed to the DP-bitset / CP-SAT escalation.
This is the refinement target the C5 claim describes; the source instead
passes the unfloored `int64(feeRate*150.0)` to the escalation lanes. -/
def CalculateAnonSetSpecTolerance (inputs : List TxIn) (outputs : List TxOut)
    (txFee txVsize : ℤ) : ℤ :=
  if inputs.length = 0 ∨ outputs.length = 0 then 0
  else if inputs.length > 15 ∨ outputs.length > 15 then
    (countEqualOutputs outputs : ℤ)
  else
    let inputVals := inputs.map (·.value)
    let outputVals := outputs.map (·.value)
    let m := modalOutput outputs
    let mixDenomination := m.1
    let maxEqualOutputs := m.2
    if maxEqualOutputs ≤ 1 then 0
    else
      let prunedInputVals := inputVals.filter (fun v => decide (¬ v < mixDenomination))
      let tau := max 1000 (ratRound (anonSetFeeRate txFee txVsize * 150))
      let validLinkages : ℕ := prunedInputVals.countP fun inVal =>
        if inVal < mixDenomination then false
        else
          let target := inVal - mixDenomination
          if target ≤ tau ∧ 0 ≤ target then true
          else hasMatchingInputSubsetMitM outputVals target tau
      let maxAnonSet : ℤ := (validLinkages : ℤ)
      let maxAnonSet := if maxAnonSet > (maxEqualOutputs : ℤ) then (maxEqualOutputs : ℤ) else maxAnonSet
      let maxAnonSet := if maxAnonSet > (inputs.length : ℤ) then (inputs.length : ℤ) else maxAnonSet
      if maxAnonSet = 1 ∧ maxEqualOutputs > 1 then
        let sumOutputs := outputVals.sum
        let escalated :=
          if sumOutputs ≤ 500000 then SolveDPBitset prunedInputVals outputVals tau
          else SolveCPSAT prunedInputVals outputVals tau
        let maxAnonSet := if escalated > maxAnonSet then escalated else maxAnonSet
        let maxAnonSet := if maxAnonSet > (maxEqualOutputs : ℤ) then (maxEqualOutputs : ℤ) else maxAnonSet
        let maxAnonSet := if maxAnonSet > (inputs.length : ℤ) then (inputs.length : ℤ) else maxAnonSet
        maxAnonSet
      else maxAnonSet

/-- `cuda.CalculateAnonSetHardware` in the default (non-`cuda` build tag)
configuration: a CPU fallback that always returns 0
(cuda_matcher_cpu.go). -/
def CalculateAnonSetHardware (_tx : Transaction) : ℤ := 0

-- ===================================================================
-- Change detection (change_detection.go)
-- ===================================================================

/-- `ChangeDetectionResult`. -/
structure ChangeDetectionResult where
  changeIndex : ℤ
  confidence : ℚ
  method : String
  isRoundPayment : Bool
  scriptTypeMatch : Bool
deriving DecidableEq, Repr

/-- One weighted vote of a change sub-heuristic. -/
structure ChangeVote where
  idx : ℕ
  weight : ℚ
  method : String
deriving DecidableEq, Repr

/-- The most common address type of a list of (already classified,
non-empty) type strings; candidates scanned in first-occurrence order
(Go ranges over a count map, ties unspecified). -/
def dominantTypeOf (types : List String) : String :=
  (keysIn types).foldl
    (fun best t => if types.count t > types.count best.2 ∧ types.count t > best.1 then (types.count t, t) else best)
    (0, "") |>.2

/-- `DetectChangeOutput` (change_detection.go): five independent
sub-heuristics vote with weights, the index with the greatest summed
weight (ties broken by first occurrence; Go ranges a map) wins if its
weight reaches 0.25. -/
def DetectChangeOutput (tx : Transaction) : ChangeDetectionResult :=
  if tx.outputs.length < 2 ∨ tx.outputs.length > 5 then
    { changeIndex := -1, confidence := 0, method := "", isRoundPayment := false,
      scriptTypeMatch := false }
  else
    -- Heuristic 1: optimal change
    let votes1 : List ChangeVote :=
      if tx.inputs.length > 0 then
        let minInput := tx.inputs.foldl
          (fun m i => if 0 < i.value ∧ i.value < m then i.value else m) 9223372036854775807
        let best := tx.outputs.enum.foldl
          (fun (b : ℤ × ℤ) p =>
            if 0 < p.2.value ∧ p.2.value < b.2 ∧ p.2.value < minInput
            then ((p.1 : ℤ), p.2.value) else b)
          (-1, 9223372036854775807)
        if best.1 ≥ 0 then [{ idx := best.1.toNat, weight := 0.3, method := "optimal_change" }] else []
      else []
    -- Heuristic 2: round-number
    let roundFlags := tx.outputs.map (fun o => isRoundAmount o.value)
    let roundCount := roundFlags.count true
    let nonRoundCount := roundFlags.count false
    let lastNonRoundIdx := roundFlags.enum.foldl
      (fun (b : ℤ) p => if p.2 = false then (p.1 : ℤ) else b) (-1)
    let h2fires := decide (roundCount ≥ 1 ∧ nonRoundCount = 1)
    let votes2 : List ChangeVote :=
      if h2fires then [{ idx := lastNonRoundIdx.toNat, weight := 0.35, method := "round_number" }] else []
    -- Heuristic 3: script-type match
    let inputTypes := (tx.inputs.map (fun i => classifyAddressType i.address)).filter (fun t => decide (t ≠ ""))
    let dominant := dominantTypeOf inputTypes
    let matching : List ℕ :=
      if tx.inputs.length > 0 ∧ dominant ≠ "" then
        (tx.outputs.enum.filter (fun p => decide (classifyAddressType p.2.address = dominant))).map (·.1)
      else []
    let h3fires := decide (tx.inputs.length > 0 ∧ dominant ≠ "" ∧ matching.length = 1)
    let votes3 : List ChangeVote :=
      if h3fires then [{ idx := matching.headD 0, weight := 0.25, method := "script_type_match" }] else []
    -- Heuristic 4: address reuse self-spend
    let inputAddrs := (tx.inputs.map (·.address)).filter (fun a => decide (a ≠ ""))
    let votes4 : List ChangeVote :=
      (tx.outputs.enum.filter (fun p => decide (p.2.address ≠ "" ∧ p.2.address ∈ inputAddrs))).map
        (fun p => { idx := p.1, weight := 0.5, method := "address_reuse_self" })
    -- Heuristic 5: shadow change (1-in-2-out)
    let votes5 : List ChangeVote :=
      if tx.inputs.length = 1 ∧ tx.outputs.length = 2 then
        let inputVal := (tx.inputs.headD default).value
        (List.range 2).filterMap fun i =>
          let other := 1 - i
          let expected := inputVal - tx.fee - (tx.outputs.getD other default).value
          if expected = (tx.outputs.getD i default).value then
            some { idx := other, weight := 0.2, method := "shadow_change" }
          else none
      else []
    let votes := votes1 ++ votes2 ++ votes3 ++ votes4 ++ votes5
    let base : ChangeDetectionResult :=
      { changeIndex := -1, confidence := 0, method := "", isRoundPayment := h2fires,
        scriptTypeMatch := h3fires }
    if votes.isEmpty then base
    else
      let idxs := keysIn (votes.map (·.idx))
      let scoreOf := fun i => ((votes.filter (fun v => decide (v.idx = i))).map (·.weight)).sum
      let best := idxs.foldl
        (fun (b : ℤ × ℚ) i => if scoreOf i > b.2 then ((i : ℤ), scoreOf i) else b) (-1, 0)
      if best.1 ≥ 0 ∧ best.2 ≥ 0.25 then
        { base with
          changeIndex := best.1
          confidence := min best.2 1
          method := String.intercalate "+"
            (((votes.filter (fun v => decide ((v.idx : ℤ) = best.1))).map (·.method))) }
      else base

-- ===================================================================
-- Wallet fingerprint (wallet_fingerprint.go)
-- ===================================================================

/-- `WalletFingerprint`. -/
structure WalletFingerprint where
  walletFamily : String
  confidence : ℚ
  isBIP69 : Bool
  inputScriptTypes : String
  outputScriptTypes : String
  hasMixedTypes : Bool
  isConsolidation : Bool
  isBatched : Bool
deriving DecidableEq, Repr

/-- `WhirlpoolPoolInfo`. -/
structure WhirlpoolPoolInfo where
  poolID : String
  denomSats : ℤ
  numParticipants : ℕ
  isSurge : Bool
  coordinatorFee : ℤ
deriving DecidableEq, Repr

/-- `checkBIP69Ordering`. -/
def checkBIP69Ordering (tx : Transaction) : Bool :=
  if tx.inputs.length ≤ 1 ∧ tx.outputs.length ≤ 1 then true
  else
    let inputsSorted := (tx.inputs.zip (tx.inputs.drop 1)).all fun p =>
      decide (¬ (p.1.txid > p.2.txid ∨ (p.1.txid = p.2.txid ∧ p.1.vout > p.2.vout)))
    let outputsSorted := (tx.outputs.zip (tx.outputs.drop 1)).all fun p =>
      decide (¬ (p.1.value > p.2.value ∨ (p.1.value = p.2.value ∧ p.1.scriptPubKey > p.2.scriptPubKey)))
    inputsSorted && outputsSorted

/-- `detectRBFSignaling` (timing_analysis.go, also inlined in the wallet
fingerprint): any input with `0 < nSequence < 0xFFFFFFFE`. -/
def detectRBFSignaling (tx : Transaction) : Bool :=
  tx.inputs.any fun i => decide (0 < i.sequence ∧ i.sequence < 4294967294)

/-- `DetectWalletFingerprint` (wallet_fingerprint.go).  The six wallet
score accumulators are taken in declaration order when selecting the
strict maximum (Go ranges a map, ties unspecified). -/
def DetectWalletFingerprint (tx : Transaction) : WalletFingerprint :=
  let isB69 := checkBIP69Ordering tx
  let inTypes := (tx.inputs.map (fun i => classifyAddressType i.address)).filter (fun t => decide (t ≠ ""))
  let outTypes := (tx.outputs.map (fun o => classifyAddressType o.address)).filter (fun t => decide (t ≠ ""))
  let inDom := dominantTypeOf inTypes
  let outDom := dominantTypeOf outTypes
  let mixed := decide ((keysIn inTypes).length > 1 ∨ (keysIn outTypes).length > 1)
  let isConsol := decide (tx.inputs.length ≥ 5 ∧ tx.outputs.length = 1)
  let isBatch := decide (tx.inputs.length = 1 ∧ tx.outputs.length ≥ 5)
  let hasRBF := detectRBFSignaling tx
  let sBitcoinCore : ℚ :=
    (if inDom = "p2wpkh" ∧ isB69 = false then 0.3 else 0) +
    (if inDom = "p2wpkh" ∧ outDom = "p2wpkh" then 0.2 else 0) +
    (if inDom = "p2pkh" then 0.1 else 0) +
    (if inDom = "p2sh" then 0.05 else 0) +
    (if 0 < tx.lockTime ∧ tx.lockTime < 500000000 then 0.25 else 0) +
    (if hasRBF then 0.1 else 0) +
    (if tx.version = 2 then 0.05 else 0)
  let sElectrum : ℚ :=
    (if isB69 ∧ inDom = "p2wpkh" then 0.4 else 0) +
    (if tx.lockTime = 0 then 0.1 else 0) +
    (if hasRBF then 0.15 else 0) +
    (if tx.version = 2 then 0.05 else 0)
  let sWasabi : ℚ := if mixed ∧ tx.outputs.length ≥ 10 then 0.3 else 0
  let sSamourai : ℚ :=
    (if isB69 then 0.2 else 0) +
    (if tx.lockTime = 0 then 0.1 else 0) +
    (if hasRBF = false then 0.1 else 0) +
    (if tx.version = 1 then 0.1 else 0)
  let sSparrow : ℚ :=
    (if inDom = "p2tr" then 0.3 else 0) +
    (if inDom = "p2tr" ∧ outDom = "p2tr" then 0.2 else 0)
  let sExchange : ℚ :=
    (if isBatch then 0.5 else 0) + (if isConsol then 0.3 else 0)
  let cands : List (String × ℚ) :=
    [("bitcoin_core", sBitcoinCore), ("electrum", sElectrum), ("wasabi", sWasabi),
     ("samourai", sSamourai), ("sparrow", sSparrow), ("exchange", sExchange)]
  let best := cands.foldl (fun (b : String × ℚ) c => if c.2 > b.2 then c else b) ("unknown", 0)
  { walletFamily := if best.2 ≥ 0.2 then best.1 else "unknown"
    confidence := if best.2 ≥ 0.2 then best.2 else 0
    isBIP69 := isB69
    inputScriptTypes := inDom
    outputScriptTypes := outDom
    hasMixedTypes := mixed
    isConsolidation := isConsol
    isBatched := isBatch }

/-- The Whirlpool pool table (declaration order). -/
def whirlpoolPools : List (String × ℤ) :=
  [("0.5btc", 50000000), ("0.05btc", 5000000), ("0.01btc", 1000000), ("0.001btc", 100000)]

/-- `IdentifyWhirlpoolPool` (wallet_fingerprint.go). -/
def IdentifyWhirlpoolPool (tx : Transaction) : Option WhirlpoolPoolInfo :=
  if tx.outputs.length < 5 then none
  else
    let vals := (tx.outputs.map (·.value)).filter (fun v => decide (v > 0))
    let dom := (keysIn vals).foldl
      (fun (b : ℤ × ℕ) v => if vals.count v > b.2 then (v, vals.count v) else b) (0, 0)
    if dom.2 < 5 then none
    else
      (whirlpoolPools.filterMap fun p =>
        let tol := Int.tdiv p.2 100
        if p.2 - tol ≤ dom.1 ∧ dom.1 ≤ p.2 + tol then
          some { poolID := p.1
                 denomSats := dom.1
                 numParticipants := dom.2
                 isSurge := decide (dom.2 > 5)
                 coordinatorFee :=
                   ((tx.outputs.filter fun o =>
                      decide (o.value ≠ dom.1 ∧ 0 < o.value ∧ o.value < Int.tdiv p.2 10)).headD
                     default).value }
        else none).head?

-- ===================================================================
-- Fee-rate intelligence (fee analysis module)
-- ===================================================================

/-- `classifyFeeRate`. -/
def classifyFeeRate (feeRate : ℚ) : String :=
  if feeRate ≤ 1 then "minimal"
  else if feeRate ≤ 3 then "economic"
  else if feeRate ≤ 15 then "normal"
  else if feeRate ≤ 50 then "priority"
  else "urgent"

/-- `detectFeeRounding`. -/
def detectFeeRounding (feeRate : ℚ) : String :=
  if feeRate ≤ 0 then "none"
  else if |feeRate - (ratRound feeRate : ℚ)| < 0.05 then
    let rounded := ratRound feeRate
    if rounded % 10 = 0 ∧ rounded > 0 then "10sat"
    else if rounded % 5 = 0 ∧ rounded > 0 then "5sat"
    else "1sat"
  else "precise"

/-- `detectUnnecessaryInputs`: greedy count of inputs removable (smallest
first) while the rest still cover outputs + fee. -/
def detectUnnecessaryInputs (tx : Transaction) : ℕ :=
  if tx.inputs.length ≤ 1 then 0
  else
    let totalNeeded := tx.fee + (tx.outputs.map (·.value)).sum
    let sorted := sortAsc (tx.inputs.map (·.value))
    let totalAvailable := (tx.inputs.map (·.value)).sum
    (sorted.foldl
      (fun (st : ℕ × ℤ) v =>
        if st.2 - v ≥ totalNeeded then (st.1 + 1, st.2 - v) else st)
      (0, totalAvailable)).1

/-- `computeOverpayRatio`. -/
def computeOverpayRatio (tx : Transaction) : ℚ :=
  if tx.fee ≤ 0 ∨ tx.vsize ≤ 0 then 1
  else round2 ((tx.fee : ℚ) / (tx.vsize : ℚ))

/-- `inferWalletFromFee`. -/
def inferWalletFromFee (r : FeeAnalysisResult) : String :=
  if r.roundingPattern = "10sat" ∨ r.roundingPattern = "5sat" then "exchange/custodial"
  else if r.overpayRatio > 2 then "coordinator/wasabi"
  else if r.roundingPattern = "1sat" ∧ r.feeRateClass = "economic" then "bitcoin-core"
  else if r.roundingPattern = "1sat" ∧ r.feeRateClass = "normal" then "bitcoin-core"
  else if r.roundingPattern = "precise" ∧ r.feeRateClass = "normal" then "electrum/sparrow"
  else if r.feeRateClass = "minimal" ∧ r.unnecessaryInputs = 0 then "lightning"
  else "unknown"

/-- `AnalyzeFeePattern`. -/
def AnalyzeFeePattern (tx : Transaction) : FeeAnalysisResult :=
  let feeRate : ℚ :=
    if tx.vsize > 0 then round2 ((tx.fee : ℚ) / (tx.vsize : ℚ))
    else if tx.weight > 0 then
      round2 ((tx.fee : ℚ) / ((Int.tdiv (tx.weight + 3) 4 : ℤ) : ℚ))
    else 0
  let r0 : FeeAnalysisResult :=
    { feeRate := feeRate
      feeRateClass := classifyFeeRate feeRate
      roundingPattern := detectFeeRounding feeRate
      walletHint := "unknown"
      overpayRatio := computeOverpayRatio tx
      unnecessaryInputs := detectUnnecessaryInputs tx }
  { r0 with walletHint := inferWalletFromFee r0 }

/-- `IsSuspiciousFeePattern`. -/
def IsSuspiciousFeePattern (r : FeeAnalysisResult) : Bool :=
  decide (r.overpayRatio > 3 ∨ r.feeRate > 100 ∨ r.unnecessaryInputs ≥ 3)

-- ===================================================================
-- Boltzmann entropy (entropy_analysis.go)
-- ===================================================================

/-- `round(100·log2 c)` for an interpretation count `c ≥ 1`: the
2-decimal-rounded entropy of the source, scaled by 100 so it stays an
integer.  (`round(log2(c)·100) = ⌊log2(2·c²⁰⁰)⌋ / 2` since
`⌊y/2⌋ = ⌊⌊y⌋/2⌋`.) -/
def centiEntropy (c : ℕ) : ℕ := if c ≤ 1 then 0 else Nat.log2 (2 * c ^ 200) / 2

/-- `classifyEntropyLevel`, expressed exactly on the interpretation count
(`entropy = log2 c`; the thresholds 0, 2, 4, 7 bits are the counts
1, 4, 16, 128). -/
def classifyEntropyLevel (c : ℕ) : String :=
  if c ≤ 1 then "transparent"
  else if c < 4 then "low"
  else if c < 16 then "moderate"
  else if c < 128 then "high"
  else "maximum"

/-- The backtracking core of `countValidMappings`: outputs are processed
largest-first, each assigned to a distinct compatible input
(`input.value ≥ output.value`); when the transaction has more outputs
than inputs each level may also be skipped; enumeration stops expanding
once 10000 assignments are counted. -/
def countMappingsAux (inVals : List ℤ) (allowSkip : Bool) :
    List ℤ → List Bool → ℕ → ℕ
  | [], _, count => count + 1
  | oVal :: rest, used, count =>
      if count ≥ 10000 then count
      else
        let count := (List.range inVals.length).foldl
          (fun c i =>
            if used.getD i false then c
            else if inVals.getD i 0 ≥ oVal then
              countMappingsAux inVals allowSkip rest (used.set i true) c
            else c)
          count
        if allowSkip then countMappingsAux inVals allowSkip rest used count
        else count

/-- `countValidMappings` (entropy_analysis.go).  The Go code sorts
(index, value) pairs descending by value with an unstable sort and the
compatibility test depends only on the value, so sorting the values
descending is equivalent. -/
def countValidMappings (inputs : List TxIn) (outputs : List TxOut) (_fee : ℤ) : ℕ :=
  if outputs.length = 0 ∨ inputs.length = 0 then 1
  else
    countMappingsAux (inputs.map (·.value))
      (decide (outputs.length > inputs.length))
      (sortDesc (outputs.map (·.value)))
      (inputs.map fun _ => false) 0

/-- `estimateMappingsLarge` (entropy_analysis.go). -/
def estimateMappingsLarge (inputs : List TxIn) (outputs : List TxOut) : ℕ :=
  let vals := outputs.map (·.value)
  let total : ℚ := (keysIn vals).foldl
    (fun acc v =>
      let groupSize := vals.count v
      let eligible := (inputs.filter (fun i => decide (i.value ≥ v))).length
      if eligible ≥ groupSize then
        acc * (Nat.choose eligible groupSize : ℚ) *
          (Nat.factorial (min groupSize 12) : ℚ)
      else acc)
    1
  let total := if total > 1000000000 then (1000000000 : ℚ) else total
  (goTrunc total).toNat

/-- `ComputeBoltzmannEntropy` (entropy_analysis.go); see the header
comment for how the entropy float is carried by `interpretations`. -/
def ComputeBoltzmannEntropy (tx : Transaction) : EntropyResult :=
  let nIn := tx.inputs.length
  let nOut := tx.outputs.length
  if nIn = 0 ∨ nOut = 0 then { level := "transparent", interpretations := 0 }
  else if nIn = 1 ∧ nOut ≤ 2 then { level := "transparent", interpretations := 1 }
  else
    let interp :=
      if nIn ≤ 12 ∧ nOut ≤ 12 then countValidMappings tx.inputs tx.outputs tx.fee
      else estimateMappingsLarge tx.inputs tx.outputs
    let interp := if interp < 1 then 1 else interp
    { level := classifyEntropyLevel interp, interpretations := interp }

-- ===================================================================
-- Peel chain (peel chain module)
-- ===================================================================

/-- `PeelChainCandidate`. -/
structure PeelChainCandidate where
  isPeelStep : Bool
  confidence : ℚ
  changeIndex : ℤ
  paymentIndex : ℤ
  changeValue : ℤ
  paymentValue : ℤ
  inputIsSingle : Bool
deriving DecidableEq, Repr

/-- `DetectPeelChainStep`. -/
def DetectPeelChainStep (tx : Transaction) (isCoinJoin : Bool) : PeelChainCandidate :=
  let base : PeelChainCandidate :=
    { isPeelStep := false, confidence := 0, changeIndex := -1, paymentIndex := -1,
      changeValue := 0, paymentValue := 0, inputIsSingle := false }
  if isCoinJoin then base
  else if tx.outputs.length ≠ 2 then base
  else if tx.inputs.length < 1 ∨ tx.inputs.length > 2 then base
  else
    let single := decide (tx.inputs.length = 1)
    let out0 := (tx.outputs.getD 0 default).value
    let out1 := (tx.outputs.getD 1 default).value
    let st :=
      if out0 ≤ out1 then ((0 : ℤ), (1 : ℤ), out0, out1)
      else ((1 : ℤ), (0 : ℤ), out1, out0)
    let totalInput := (tx.inputs.map (·.value)).sum
    let conf : ℚ :=
      (if single then 0.3 else 0.1) +
      (if totalInput > 0 then
        (if (st.2.2.1 : ℚ) / (totalInput : ℚ) < 0.3 then 0.25
         else if (st.2.2.1 : ℚ) / (totalInput : ℚ) < 0.5 then 0.15 else 0)
       else 0) +
      (if tx.inputs.length > 0 ∧
          detectAddressType (tx.inputs.headD default).address =
            detectAddressType (tx.outputs.getD st.1.toNat default).address ∧
          detectAddressType (tx.inputs.headD default).address ≠ "unknown"
       then 0.2 else 0) +
      (if isRoundAmount st.2.2.2 then 0.15 else 0) +
      (if tx.fee > 0 ∧ tx.vsize > 0 ∧
          1 ≤ (tx.fee : ℚ) / (tx.vsize : ℚ) ∧ (tx.fee : ℚ) / (tx.vsize : ℚ) ≤ 50
       then 0.1 else 0)
    let conf := if conf > 1 then 1 else conf
    { base with
      inputIsSingle := single
      changeIndex := st.1
      paymentIndex := st.2.1
      changeValue := st.2.2.1
      paymentValue := st.2.2.2
      isPeelStep := decide (conf ≥ 0.4)
      confidence := if conf ≥ 0.4 then conf else 0 }

/-- `BuildPeelChainResult`. -/
def BuildPeelChainResult (c : PeelChainCandidate) : Option PeelChainResult :=
  if c.isPeelStep = false then none
  else some
    { isChain := true, chainLength := 1, direction := "forward",
      confidence := c.confidence, previousTxid := "", changeIndex := c.changeIndex }

-- ===================================================================
-- Timing (timing_analysis.go)
-- ===================================================================

/-- `TimingSignal`. -/
structure TimingSignal where
  hasTimingAnomaly : Bool
  anomalyType : String
  confidence : ℚ
  nLockTimeSignal : String
  rbfSignaling : Bool
  versionSignal : String
deriving DecidableEq, Repr

/-- `analyzeNLockTime`. -/
def analyzeNLockTime (tx : Transaction) : String :=
  let lt := tx.lockTime
  if lt = 0 then "disabled"
  else if lt ≥ 500000000 then "timelock"
  else
    if tx.blockHeight > 0 ∧ -2 ≤ (lt : ℤ) - tx.blockHeight ∧ (lt : ℤ) - tx.blockHeight ≤ 0
    then "anti-fee-snipe"
    else if 700000 < lt ∧ lt < 1000000 then "anti-fee-snipe"
    else "height-lock"

/-- `analyzeVersion`. -/
def analyzeVersion (tx : Transaction) : String :=
  if tx.version = 1 then "v1"
  else if tx.version = 2 then
    if tx.inputs.any (fun i => decide (0 < i.sequence ∧ i.sequence < 2147483648)) then "v2-csv"
    else if detectRBFSignaling tx then "v2-rbf"
    else "v2"
  else "unknown"

/-- `detectTimingAnomalies`. -/
def detectTimingAnomalies (tx : Transaction) : Bool × String × ℚ :=
  if tx.inputs.length ≤ 3 ∧ tx.outputs.length ≥ 10 ∧
      (keysIn (tx.outputs.map (fun o => detectAddressType o.address))).length ≥ 2 then
    (true, "batch_payout", min 0.9 (0.5 + 0.05 * (tx.outputs.length : ℚ)))
  else if tx.inputs.length ≥ 50 ∧ tx.outputs.length ≥ 50 then
    (true, "coordinator_round", 0.85)
  else if tx.inputs.length ≥ 3 ∧ tx.outputs.length ≥ 3 ∧
      (tx.inputs.all fun i => decide (i.value = (tx.inputs.headD default).value)) ∧
      (tx.outputs.all fun o => decide (o.value = (tx.outputs.headD default).value)) then
    (true, "bot_timing", 0.7)
  else (false, "none", 0)

/-- `AnalyzeTimingSignals`. -/
def AnalyzeTimingSignals (tx : Transaction) : TimingSignal :=
  let a := detectTimingAnomalies tx
  { hasTimingAnomaly := a.1
    anomalyType := a.2.1
    confidence := a.2.2
    nLockTimeSignal := analyzeNLockTime tx
    rbfSignaling := detectRBFSignaling tx
    versionSignal := analyzeVersion tx }

/-- `InferWalletFromTiming`. -/
def InferWalletFromTiming (s : TimingSignal) : String :=
  if s.nLockTimeSignal = "anti-fee-snipe" ∧ s.rbfSignaling then "bitcoin-core"
  else if s.nLockTimeSignal = "disabled" ∧ s.rbfSignaling then "electrum"
  else if s.nLockTimeSignal = "disabled" ∧ s.rbfSignaling = false ∧ s.versionSignal = "v1" then "samourai"
  else if s.nLockTimeSignal = "anti-fee-snipe" ∧ s.versionSignal = "v2-csv" then "blockstream-green"
  else "unknown"

-- ===================================================================
-- Dust (dust_analysis.go)
-- ===================================================================

/-- `getDustThreshold`. -/
def getDustThreshold (addr : String) : ℤ :=
  let t := detectAddressType addr
  if t = "taproot" then 330
  else if t = "segwit" then 294
  else if t = "p2sh-segwit" then 540
  else if t = "legacy" then 546
  else 546

/-- `classifyDustIntent` (takes the already computed counts). -/
def classifyDustIntent (tx : Transaction) (hasDustOutputs hasDustInputs : Bool)
    (dustOutputCount dustInputCount : ℕ) : String :=
  if hasDustOutputs ∧ dustOutputCount ≥ 3 then
    let uniqueAddrs := keysIn ((tx.outputs.filter fun o =>
      decide (0 < o.value ∧ o.value ≤ getDustThreshold o.address)).map (·.address))
    if uniqueAddrs.length ≥ 3 then "surveillance" else "spam"
  else if hasDustInputs ∧ tx.inputs.length > dustInputCount then "consolidation"
  else if hasDustOutputs ∧ dustOutputCount = 1 ∧
      (tx.outputs.filter fun o => decide (o.value > getDustThreshold o.address)).length ≥ 1
  then "surveillance"
  else "none"

/-- `assessDustRisk`. -/
def assessDustRisk (intent : String) (dustOutputCount dustInputCount : ℕ) : String :=
  if intent = "consolidation" then (if dustInputCount ≥ 3 then "critical" else "high")
  else if intent = "surveillance" then (if dustOutputCount ≥ 5 then "high" else "medium")
  else if intent = "spam" then "low"
  else "none"

/-- `DetectDustAttack`. -/
def DetectDustAttack (tx : Transaction) : DustResult :=
  let dustOuts := tx.outputs.filter fun o => decide (0 < o.value ∧ o.value ≤ getDustThreshold o.address)
  let dustIns := tx.inputs.filter fun i => decide (0 < i.value ∧ i.value ≤ getDustThreshold i.address)
  let hasOuts := !dustOuts.isEmpty
  let hasIns := !dustIns.isEmpty
  let intent := classifyDustIntent tx hasOuts hasIns dustOuts.length dustIns.length
  { hasDustOutputs := hasOuts
    hasDustInputs := hasIns
    dustOutputCount := dustOuts.length
    dustInputCount := dustIns.length
    totalDustValue := (dustOuts.map (·.value)).sum + (dustIns.map (·.value)).sum
    intent := intent
    riskLevel := assessDustRisk intent dustOuts.length dustIns.length }

-- ===================================================================
-- Topology (UTXO graph topology module)
-- ===================================================================

/-- `computeGiniCoefficient`. -/
def computeGiniCoefficient (outputs : List TxOut) : ℚ :=
  let n := outputs.length
  if n ≤ 1 then 0
  else
    let vals := outputs.map (·.value)
    let total : ℚ := ((vals.sum : ℤ) : ℚ)
    if total ≤ 0 then 0
    else
      let sorted := sortAsc vals
      let weightedSum : ℚ := (sorted.enum.map (fun p => ((p.1 + 1 : ℕ) : ℚ) * (p.2 : ℚ))).sum
      let gini := 2 * weightedSum / ((n : ℚ) * total) - ((n : ℚ) + 1) / (n : ℚ)
      let gini := if gini < 0 then 0 else gini
      let gini := if gini > 1 then 1 else gini
      round2 gini

/-- `classifyValueConcentration`. -/
def classifyValueConcentration (gini : ℚ) : String :=
  if gini ≤ 0.2 then "dispersed"
  else if gini ≤ 0.5 then "moderate"
  else "concentrated"

/-- `classifyTxShape`. -/
def classifyTxShape (topo : TopologyResult) : String :=
  let fanIn := topo.fanIn
  let fanOut := topo.fanOut
  if fanIn ≤ 2 ∧ fanOut ≤ 2 then
    (if fanIn = 1 ∧ fanOut = 2 then "peel-step" else "simple-payment")
  else if fanIn ≥ 3 ∧ fanOut = 1 then "consolidation"
  else if fanIn ≤ 3 ∧ fanOut ≥ 5 then "batch-payout"
  else if topo.ioSymmetry ≤ 0.2 ∧ fanIn ≥ 5 ∧ fanOut ≥ 5 then "mixing"
  else if fanIn ≥ 10 ∨ fanOut ≥ 10 then "hub"
  else if fanIn ≥ 2 ∧ 3 ≤ fanOut ∧ fanOut ≤ 5 then "multi-payment"
  else "complex"

/-- `AnalyzeTopology`. -/
def AnalyzeTopology (tx : Transaction) : TopologyResult :=
  let fanIn := tx.inputs.length
  let fanOut := tx.outputs.length
  let maxIO : ℚ := (max fanIn fanOut : ℕ)
  let ioSym : ℚ :=
    if maxIO > 0 then round2 (|(fanIn : ℚ) - (fanOut : ℚ)| / maxIO) else 0
  let gini := computeGiniCoefficient tx.outputs
  let r0 : TopologyResult :=
    { shape := "", fanIn := fanIn, fanOut := fanOut, ioSymmetry := ioSym,
      giniCoefficient := gini, isHub := decide (fanIn ≥ 10 ∨ fanOut ≥ 10),
      valueConcentration := classifyValueConcentration gini }
  { r0 with shape := classifyTxShape r0 }

-- ===================================================================
-- CoinJoin unmixing (coinjoin_unmix.go)
-- ===================================================================

/-- `classifyMixQuality`. -/
def classifyMixQuality (ratio : ℚ) : String :=
  if ratio ≤ 0 then "perfect"
  else if ratio ≤ 0.1 then "strong"
  else if ratio ≤ 0.3 then "moderate"
  else if ratio ≤ 0.6 then "weak"
  else "broken"

/-- `AnalyzeUnmixability` (coinjoin_unmix.go).  The linkability matrix
entry `matrix[i][j]` is `inputs[i].value ≥ outputs[j].value`, so only the
per-output eligible-input count is needed. -/
def AnalyzeUnmixability (tx : Transaction) (isCoinJoin : Bool) : UnmixResult :=
  let base : UnmixResult :=
    { unmixableOutputs := 0, totalOutputs := tx.outputs.length,
      deterministicLinks := 0, linkabilityScore := 0, weakParticipants := 0,
      mixQuality := "perfect" }
  if isCoinJoin = false ∨ tx.inputs.length < 2 ∨ tx.outputs.length < 2 then base
  else
    let eligibleOf := fun (o : TxOut) =>
      (tx.inputs.filter (fun i => decide (i.value ≥ o.value))).length
    let detLinks := (tx.outputs.filter (fun o => decide (eligibleOf o = 1))).length
    let weak := (tx.outputs.filter
      (fun o => decide (eligibleOf o ≠ 1 ∧ eligibleOf o ≤ 2))).length
    let vals := tx.outputs.map (·.value)
    let uniqueVals := (tx.outputs.filter (fun o => decide (vals.count o.value = 1))).length
    let unmixRaw := detLinks + uniqueVals
    let unmix := min unmixRaw tx.outputs.length
    let link : ℚ :=
      if tx.outputs.length > 0 then
        (ratRound ((unmix : ℚ) * 100 / (tx.outputs.length : ℚ)) : ℚ) / 100
      else 0
    { unmixableOutputs := unmix, totalOutputs := tx.outputs.length,
      deterministicLinks := detLinks, linkabilityScore := link,
      weakParticipants := weak, mixQuality := classifyMixQuality link }

-- ===================================================================
-- UTXO age (input age module)
-- ===================================================================

/-- Value of one hex character (Go's switch; other characters give 0). -/
def hexNibbleVal (c : Char) : ℕ :=
  if '0' ≤ c ∧ c ≤ '9' then c.toNat - 48
  else if 'a' ≤ c ∧ c ≤ 'f' then c.toNat - 97 + 10
  else if 'A' ≤ c ∧ c ≤ 'F' then c.toNat - 65 + 10
  else 0

/-- `estimateInputAge` (age in days as an exact rational). -/
def estimateInputAge (inp : TxIn) (spendingHeight : ℤ) : ℚ :=
  if spendingHeight ≤ 0 ∨ inp.txid.length < 8 then 0
  else
    let offset : ℕ := (inp.txid.data.take 8).foldl (fun acc c => acc * 16 + hexNibbleVal c) 0
    let creationHeight := spendingHeight - (offset : ℤ) % spendingHeight
    let creationHeight := if creationHeight < 0 then 0 else creationHeight
    let heightDiff := spendingHeight - creationHeight
    let ageDays : ℚ := (heightDiff : ℚ) / 144
    if ageDays < 0 then 0 else ageDays

/-- `classifyHoldingPattern`. -/
def classifyHoldingPattern (avgAgeDays : ℚ) : String :=
  if avgAgeDays < 1 then "hot-wallet"
  else if avgAgeDays < 7 then "service"
  else if avgAgeDays < 30 then "user"
  else if avgAgeDays < 365 then "hodler"
  else "ancient"

/-- `AnalyzeUTXOAge`. -/
def AnalyzeUTXOAge (tx : Transaction) : UTXOAgeResult :=
  let base : UTXOAgeResult :=
    { avgAgeDays := 0, maxAgeDays := 0, minAgeDays := 0, coinDaysDestroyed := 0,
      holdingPattern := "unknown", hasAncientUTXO := false }
  if tx.blockTime ≤ 0 then base
  else
    let pairs := (tx.inputs.map (fun i => (estimateInputAge i tx.blockHeight, i.value))).filter
      (fun p => decide (p.1 > 0))
    if pairs.isEmpty then base
    else
      let ages := pairs.map (·.1)
      let first := ages.headD 0
      let minA := ages.foldl (fun m a => if a < m then a else m) first
      let maxA := ages.foldl (fun m a => if a > m then a else m) first
      let totalAge := ages.sum
      let avg : ℚ := (ratRound (totalAge * 100 / (ages.length : ℚ)) : ℚ) / 100
      let cdd : ℚ := (pairs.map (fun p => (p.2 : ℚ) / 100000000 * p.1)).sum
      { avgAgeDays := avg, maxAgeDays := maxA, minAgeDays := minA,
        coinDaysDestroyed := round2 cdd,
        holdingPattern := classifyHoldingPattern avg,
        hasAncientUTXO := decide (maxA > 365) }

-- ===================================================================
-- Value fingerprinting (value_fingerprint.go)
-- ===================================================================

/-- `roundBTCAmounts`. -/
def roundBTCAmounts : List ℤ :=
  [100000, 500000, 1000000, 5000000, 10000000, 50000000, 100000000, 200000000, 500000000]

/-- `isRoundBTCAmount`. -/
def isRoundBTCAmount (sats : ℤ) : Bool := roundBTCAmounts.any fun r => decide (sats = r)

/-- `isRoundSatsAmount`. -/
def isRoundSatsAmount (sats : ℤ) : Bool :=
  decide (0 < sats ∧ (sats % 100000 = 0 ∨ sats % 50000 = 0 ∨ sats % 10000 = 0))

/-- `knownServiceFees` (declaration order; the Go code ranges this map
in unspecified order, and two services share the candidate fee 10000 —
examples below avoid the overlapping entries). -/
def knownServiceFees : List (String × List ℤ) :=
  [("binance", [50000, 40000, 30000, 20000]), ("coinbase", [1000, 2000, 5000, 10000]),
   ("kraken", [15000, 10000]), ("ftx", [0]), ("gemini", [0, 1000]), ("bitfinex", [4000, 6000])]

/-- `matchKnownServiceFee`. -/
def matchKnownServiceFee (tx : Transaction) : String :=
  if tx.fee ≤ 0 then "none"
  else
    match knownServiceFees.find? (fun p => p.2.any fun k =>
      decide (k ≠ 0 ∧
        tx.fee ≥ k - (if Int.tdiv k 20 < 100 then 100 else Int.tdiv k 20) ∧
        tx.fee ≤ k + (if Int.tdiv k 20 < 100 then 100 else Int.tdiv k 20))) with
    | some p => p.1
    | none =>
        if 10000 ≤ tx.fee ∧ tx.fee ≤ 100000 ∧ tx.fee % 1000 = 0 then "exchange-generic"
        else "none"

/-- `AnalyzeValuePatterns` (the write-only Shannon entropy float is not
carried; see `ValuePatternResult`). -/
def AnalyzeValuePatterns (tx : Transaction) : ValuePatternResult :=
  let vals := tx.outputs.map (·.value)
  let dom := (keysIn vals).foldl
    (fun (b : ℤ × ℕ) v => if vals.count v > b.2 then (v, vals.count v) else b) (0, 0)
  { hasRoundBTC := tx.outputs.any fun o => isRoundBTCAmount o.value
    hasRoundSats := tx.outputs.any fun o => isRoundSatsAmount o.value
    knownServiceFee := matchKnownServiceFee tx
    dominantDenomination := dom.1
    uniqueValueRatio :=
      if tx.outputs.length > 0 then
        (ratRound (((keysIn vals).length : ℚ) * 100 / (tx.outputs.length : ℚ)) : ℚ) / 100
      else 0 }

-- ===================================================================
-- Script templates (script template module)
-- ===================================================================

/-- `parseOpN`. -/
def parseOpN (hx : String) : ℕ :=
  if hx = "51" then 1 else if hx = "52" then 2 else if hx = "53" then 3
  else if hx = "54" then 4 else if hx = "55" then 5 else if hx = "56" then 6
  else if hx = "57" then 7 else if hx = "58" then 8 else if hx = "59" then 9
  else if hx = "5a" then 10 else if hx = "5b" then 11 else if hx = "5c" then 12
  else if hx = "5d" then 13 else if hx = "5e" then 14 else if hx = "5f" then 15
  else if hx = "60" then 16 else 0

/-- `isMultisigScript`. -/
def isMultisigScript (script : String) : Bool :=
  if script.length < 10 then false
  else
    let lower := strLower script
    strContainsSub lower "ae" &&
      (strStarts lower "51" || strStarts lower "52" || strStarts lower "53" ||
       strStarts lower "54" || strStarts lower "55")

/-- `extractMultisigMN`. -/
def extractMultisigMN (script : String) : ℕ × ℕ :=
  if script.length < 4 then (0, 0)
  else
    let lower := strLower script
    let m := parseOpN (strSlice lower 0 2)
    let aeIdx := strLastIndex lower "ae"
    if aeIdx < 2 then (0, 0)
    else
      let n := parseOpN (strSlice lower (aeIdx - 2).toNat aeIdx.toNat)
      if 0 < m ∧ 0 < n ∧ m ≤ n then (m, n) else (0, 0)

/-- `isHTLCScript`. -/
def isHTLCScript (script : String) : Bool :=
  let lower := strLower script
  strContainsSub lower "63" && strContainsSub lower "a9" &&
    (strContainsSub lower "b1" || strContainsSub lower "b2")

/-- `isOPReturn`. -/
def isOPReturn (scriptPubKey : String) : Bool := strStarts (strLower scriptPubKey) "6a"

/-- `classifyOPReturn`. -/
def classifyOPReturn (scriptPubKey : String) : String :=
  let lower := strLower scriptPubKey
  if lower.length < 6 then "unknown"
  else
    let dat := strSlice lower 4 lower.length
    if strStarts dat "6f6d6e69" then "omni"
    else if strStarts dat "4f41" then "openassets"
    else if strStarts dat "455843" then "exchain"
    else if strStarts dat "53504b" then "counterparty"
    else if strStarts dat "69643a" then "blockstack"
    else if 40 ≤ dat.length ∧ dat.length ≤ 80 then "timestamp"
    else "unknown"

/-- `estimateOPReturnSize` (`(len−2)/2`, clamped at 0). -/
def estimateOPReturnSize (scriptPubKey : String) : ℕ :=
  if scriptPubKey.length < 2 then 0 else (scriptPubKey.length - 2) / 2

/-- `detectDominantWitnessVersion` (candidate order legacy, v0, v1; Go
ranges a 3-key map, ties unspecified). -/
def detectDominantWitnessVersion (tx : Transaction) : String :=
  let types := tx.inputs.map fun i => detectAddressType i.address
  let cV1 := types.count "taproot"
  let cV0 := types.count "segwit" + types.count "p2sh-segwit"
  let cLegacy := tx.inputs.length - cV1 - cV0
  ([("legacy", cLegacy), ("v0", cV0), ("v1", cV1)].foldl
    (fun (b : String × ℕ) c => if c.2 > b.2 then c else b) ("legacy", 0)).1

/-- `estimateTapscriptDepth`. -/
def estimateTapscriptDepth (tx : Transaction) : ℕ :=
  if tx.inputs.any (fun i =>
      decide (detectAddressType i.address = "taproot" ∧ i.scriptSig.length > 128))
  then 1 else 0

/-- `AnalyzeScriptTemplates`. -/
def AnalyzeScriptTemplates (tx : Transaction) : ScriptAnalysis :=
  let r0 : ScriptAnalysis :=
    { hasMultisig := false, multisigM := 0, multisigN := 0, hasHTLC := false,
      hasOPReturn := false, opReturnProtocol := "", opReturnSize := 0,
      dominantWitness := "legacy", tapscriptDepth := 0 }
  let r1 := tx.inputs.foldl
    (fun r i =>
      let r :=
        if isMultisigScript i.scriptSig then
          let mn := extractMultisigMN i.scriptSig
          { r with hasMultisig := true
                   multisigM := if 0 < mn.1 ∧ 0 < mn.2 then mn.1 else r.multisigM
                   multisigN := if 0 < mn.1 ∧ 0 < mn.2 then mn.2 else r.multisigN }
        else r
      if isHTLCScript i.scriptSig then { r with hasHTLC := true } else r)
    r0
  let r2 := tx.outputs.foldl
    (fun r o =>
      let r :=
        if isOPReturn o.scriptPubKey then
          { r with hasOPReturn := true
                   opReturnProtocol := classifyOPReturn o.scriptPubKey
                   opReturnSize := estimateOPReturnSize o.scriptPubKey }
        else r
      if isMultisigScript o.scriptPubKey then
        let mn := extractMultisigMN o.scriptPubKey
        { r with hasMultisig := true
                 multisigM := if 0 < mn.1 ∧ 0 < mn.2 then mn.1 else r.multisigM
                 multisigN := if 0 < mn.1 ∧ 0 < mn.2 then mn.2 else r.multisigN }
      else r)
    r1
  { r2 with dominantWitness := detectDominantWitnessVersion tx
            tapscriptDepth := estimateTapscriptDepth tx }

-- ===================================================================
-- Lightning (lightning_detection.go)
-- ===================================================================

/-- `LightningResult`. -/
structure LightningResult where
  isLightningTx : Bool
  channelType : String
  estimatedCapacity : ℤ
  hasAnchorOutputs : Bool
deriving DecidableEq, Repr

/-- `lightningChannelSizes`. -/
def lightningChannelSizes : List ℤ :=
  [100000, 200000, 500000, 1000000, 2000000, 5000000, 10000000, 16777215,
   50000000, 100000000]

/-- `isChannelSize`. -/
def isChannelSize (value : ℤ) : Bool :=
  lightningChannelSizes.any fun s =>
    decide (value = s ∨ (s - Int.tdiv s 100 ≤ value ∧ value ≤ s + Int.tdiv s 100))

/-- `detectLNFunding`. -/
def detectLNFunding (tx : Transaction) : Bool :=
  if tx.inputs.length > 3 ∨ tx.outputs.length < 1 ∨ tx.outputs.length > 3 then false
  else
    (tx.outputs.any fun o =>
      decide (detectAddressType o.address = "segwit" ∧ o.scriptPubKey.length = 68)) &&
    (tx.outputs.any fun o => isChannelSize o.value)

/-- `detectCooperativeClose`. -/
def detectCooperativeClose (tx : Transaction) : Bool :=
  if tx.inputs.length ≠ 1 ∨ tx.outputs.length ≠ 2 then false
  else if tx.outputs.any (fun o =>
      decide (detectAddressType o.address ≠ "segwit" ∧ detectAddressType o.address ≠ "taproot"))
  then false
  else decide ((tx.inputs.headD default).scriptSig.length = 0)

/-- `detectForceClose`. -/
def detectForceClose (tx : Transaction) : Bool :=
  tx.inputs.length = 1 &&
    tx.outputs.any fun o => strContainsSub (strLower o.scriptPubKey) "b2"

/-- `detectPenaltyTx`. -/
def detectPenaltyTx (tx : Transaction) : Bool :=
  decide (tx.inputs.length ≥ 1 ∧ tx.outputs.length = 1)

/-- `detectAnchorOutputs`. -/
def detectAnchorOutputs (tx : Transaction) : Bool :=
  tx.outputs.any fun o => decide (o.value = 330)

/-- `sumInputValues`. -/
def sumInputValues (tx : Transaction) : ℤ := (tx.inputs.map (·.value)).sum

/-- `findChannelOutput`. -/
def findChannelOutput (tx : Transaction) : ℤ :=
  match tx.outputs.find? (fun o => isChannelSize o.value) with
  | some o => o.value
  | none => tx.outputs.foldl (fun m o => if o.value > m then o.value else m) 0

/-- `DetectLightningChannel`. -/
def DetectLightningChannel (tx : Transaction) : LightningResult :=
  if detectLNFunding tx then
    { isLightningTx := true, channelType := "funding",
      estimatedCapacity := findChannelOutput tx, hasAnchorOutputs := false }
  else if detectCooperativeClose tx then
    { isLightningTx := true, channelType := "cooperative-close",
      estimatedCapacity := sumInputValues tx, hasAnchorOutputs := false }
  else if detectForceClose tx then
    { isLightningTx := true, channelType := "force-close",
      estimatedCapacity := sumInputValues tx, hasAnchorOutputs := detectAnchorOutputs tx }
  else if detectPenaltyTx tx then
    { isLightningTx := true, channelType := "penalty",
      estimatedCapacity := sumInputValues tx, hasAnchorOutputs := false }
  else
    { isLightningTx := false, channelType := "none", estimatedCapacity := 0,
      hasAnchorOutputs := false }

-- ===================================================================
-- Coinbase (coinbase_analysis.go)
-- ===================================================================

/-- `CoinbaseResult`. -/
structure CoinbaseResult where
  isCoinbase : Bool
  poolName : String
  poolConfidence : ℚ
  blockReward : ℤ
  outputCount : ℕ
  payoutType : String
deriving DecidableEq, Repr

/-- `poolMarkers` (declaration order; the Go map is ranged in
unspecified order, with ties only between markers naming the same pool). -/
def poolMarkers : List (String × String) :=
  [("foundry usa", "Foundry USA"), ("/foundry/", "Foundry USA"),
   ("antpool", "AntPool"), ("/antpool/", "AntPool"),
   ("viabtc", "ViaBTC"), ("/viabtc/", "ViaBTC"),
   ("f2pool", "F2Pool"), ("/f2pool/", "F2Pool"),
   ("slush", "Braiins Pool"), ("braiins", "Braiins Pool"),
   ("/slushpool/", "Braiins Pool"),
   ("mara pool", "MARA Pool"), ("/mara pool/", "MARA Pool"),
   ("binance", "Binance Pool"), ("/binance/", "Binance Pool"),
   ("poolin", "Poolin"), ("/poolin/", "Poolin"),
   ("btc.com", "BTC.com"), ("/btc.com/", "BTC.com"),
   ("luxor", "Luxor"), ("/luxor/", "Luxor"),
   ("sbicrypto", "SBI Crypto"),
   ("ocean", "OCEAN"), ("/ocean.xyz/", "OCEAN"),
   ("spider pool", "SpiderPool"), ("emcd", "EMCD")]

/-- Successive hex pairs of a character list as byte values (odd
trailing character ignored, as in the Go index loop). -/
def hexPairsBytes : List Char → List ℕ
  | hi :: lo :: rest => (hexNibbleVal hi * 16 + hexNibbleVal lo) :: hexPairsBytes rest
  | _ => []

/-- `hexToASCII` (keep printable bytes 32–126, lowercase the result). -/
def hexToASCII (hx : String) : String :=
  ⟨((hexPairsBytes hx.data).filter (fun b => decide (32 ≤ b ∧ b ≤ 126))).map
      (fun b => lowerChar (Char.ofNat b))⟩

/-- `identifyPool`. -/
def identifyPool (scriptSig : String) : String × ℚ :=
  if scriptSig = "" then ("unknown", 0)
  else
    let lower := strLower scriptSig
    let decoded := hexToASCII lower
    match (poolMarkers.filterMap fun p =>
      if strContainsSub decoded p.1 then some (p.2, (95 : ℚ) / 100)
      else if strContainsSub lower p.1 then some (p.2, (85 : ℚ) / 100)
      else none).head? with
    | some r => r
    | none => ("unknown", 0)

/-- `isCoinbaseTx`. -/
def isCoinbaseTx (tx : Transaction) : Bool :=
  if tx.inputs.length ≠ 1 then false
  else
    let inp := tx.inputs.headD default
    decide (inp.txid = "" ∨
      inp.txid = "0000000000000000000000000000000000000000000000000000000000000000" ∨
      inp.vout = 4294967295)

/-- `classifyPayoutType`. -/
def classifyPayoutType (tx : Transaction) : String :=
  if tx.outputs.length = 1 then "single"
  else if tx.outputs.length ≤ 3 then "fpps"
  else if tx.outputs.length ≤ 10 then "pps"
  else "multi"

/-- `AnalyzeCoinbaseTx`. -/
def AnalyzeCoinbaseTx (tx : Transaction) : CoinbaseResult :=
  if isCoinbaseTx tx = false then
    { isCoinbase := false, poolName := "", poolConfidence := 0, blockReward := 0,
      outputCount := 0, payoutType := "unknown" }
  else
    let pool :=
      if tx.inputs.length > 0 then identifyPool (tx.inputs.headD default).scriptSig
      else ("", 0)
    { isCoinbase := true
      poolName := pool.1
      poolConfidence := pool.2
      blockReward := (tx.outputs.map (·.value)).sum
      outputCount := tx.outputs.length
      payoutType := classifyPayoutType tx }

-- ===================================================================
-- Address migration (migration tracking module)
-- ===================================================================

/-- `MigrationResult`. -/
structure MigrationResult where
  legacyRatio : ℚ
  segwitRatio : ℚ
  taprootRatio : ℚ
  p2shRatio : ℚ
  migrationStage : String
  hasMixedTypes : Bool
  changeFormat : String
deriving DecidableEq, Repr

/-- `classifyMigrationStage`. -/
def classifyMigrationStage (m : MigrationResult) : String :=
  if m.taprootRatio > 0.5 then "taproot-adopter"
  else if m.taprootRatio > 0 ∧ (m.segwitRatio > 0 ∨ m.legacyRatio > 0) then "transitioning"
  else if m.segwitRatio > 0.5 then "native-segwit"
  else if m.segwitRatio > 0 ∧ m.legacyRatio > 0 then "transitioning"
  else if m.p2shRatio > 0.5 then "wrapped-segwit"
  else if m.legacyRatio > 0.5 then "legacy"
  else "unknown"

/-- `detectChangeFormat`. -/
def detectChangeFormat (tx : Transaction) : String :=
  if tx.outputs.length < 2 then "unknown"
  else
    let st := tx.outputs.enum.foldl
      (fun (b : ℕ × ℤ) p => if p.2.value < b.2 ∧ p.2.value > 0 then (p.1, p.2.value) else b)
      (0, (tx.outputs.headD default).value)
    detectAddressType (tx.outputs.getD st.1 default).address

/-- `DetectAddressMigration`. -/
def DetectAddressMigration (tx : Transaction) : MigrationResult :=
  if tx.inputs.length = 0 then
    { legacyRatio := 0, segwitRatio := 0, taprootRatio := 0, p2shRatio := 0,
      migrationStage := "unknown", hasMixedTypes := false, changeFormat := "" }
  else
    let types := tx.inputs.map fun i => detectAddressType i.address
    let n : ℚ := (tx.inputs.length : ℚ)
    let r0 : MigrationResult :=
      { legacyRatio := (types.count "legacy" : ℚ) / n
        segwitRatio := (types.count "segwit" : ℚ) / n
        taprootRatio := (types.count "taproot" : ℚ) / n
        p2shRatio := (types.count "p2sh-segwit" : ℚ) / n
        migrationStage := "unknown"
        hasMixedTypes := decide
          (((["legacy", "segwit", "taproot", "p2sh-segwit"].filter
              (fun t => decide (types.count t > 0))).length) > 1)
        changeFormat := "" }
    { r0 with migrationStage := classifyMigrationStage r0
              changeFormat := detectChangeFormat tx }

-- ===================================================================
-- Consolidation (consolidation_analysis.go)
-- ===================================================================

/-- `ConsolidationResult`. -/
structure ConsolidationResult where
  isConsolidation : Bool
  consolidationType : String
  inputReduction : ℚ
  feeEfficiency : ℚ
  isStrategicTiming : Bool
  estimatedSavings : ℤ
deriving DecidableEq, Repr

/-- `hasEqualInputValues`. -/
def hasEqualInputValues (tx : Transaction) : Bool :=
  if tx.inputs.length < 3 then false
  else
    let buckets := tx.inputs.map fun i => Int.tdiv i.value 1000 * 1000
    let threshold := tx.inputs.length / 2
    (keysIn buckets).any fun b => decide (buckets.count b ≥ threshold)

/-- `classifyConsolidationType`. -/
def classifyConsolidationType (tx : Transaction) (strategic : Bool) : String :=
  let nIn := tx.inputs.length
  let nOut := tx.outputs.length
  if nIn ≥ 50 ∧ nOut = 1 ∧ strategic = true then "exchange-sweep"
  else if nIn ≥ 20 ∧ nOut = 1 then "exchange-sweep"
  else if nIn ≥ 10 ∧ nOut ≤ 2 ∧ strategic = true then "service-batch"
  else if nIn ≥ 5 ∧ nOut = 1 then "user-cleanup"
  else if nIn ≥ 3 ∧ nOut = 1 ∧ hasEqualInputValues tx = true then "miner-maturity"
  else if nIn ≥ 3 ∧ nOut ≤ 2 then "user-cleanup"
  else "generic"

/-- `AnalyzeConsolidation`. -/
def AnalyzeConsolidation (tx : Transaction) : ConsolidationResult :=
  let nIn := tx.inputs.length
  let nOut := tx.outputs.length
  if nIn < 3 ∨ nOut > 2 then
    { isConsolidation := false, consolidationType := "none", inputReduction := 0,
      feeEfficiency := 0, isStrategicTiming := false, estimatedSavings := 0 }
  else
    let totalInput := (tx.inputs.map (·.value)).sum
    let totalOutput := (tx.outputs.map (·.value)).sum
    let strategic := decide (tx.fee > 0 ∧ tx.vsize > 0 ∧ (tx.fee : ℚ) / (tx.vsize : ℚ) < 5)
    { isConsolidation := true
      consolidationType := classifyConsolidationType tx strategic
      inputReduction :=
        if nIn > 0 then (ratRound (((nIn : ℚ) - (nOut : ℚ)) * 100 / (nIn : ℚ)) : ℚ) / 100
        else 0
      feeEfficiency :=
        if totalInput > 0 then
          (ratRound ((totalOutput : ℚ) * 10000 / (totalInput : ℚ)) : ℚ) / 10000
        else 0
      isStrategicTiming := strategic
      estimatedSavings := ((nIn : ℤ) - 1) * 68 * 10 }

-- ===================================================================
-- Taint (taint_seed.go, weighted exposure version; the global map is an
-- explicit association-list parameter with distinct keys)
-- ===================================================================

/-- `CheckInputsForTaint`. -/
def CheckInputsForTaint (taint : List (String × ℚ)) (tx : Transaction) : ℚ × Bool :=
  if taint.isEmpty then (0, false)
  else
    let eligible := tx.inputs.filter fun i =>
      decide (strTrim i.address ≠ "" ∧ i.value > 0)
    let totalIn := (eligible.map (·.value)).sum
    let found := eligible.filterMap fun i =>
      (taint.lookup (strTrim i.address)).map fun t => (t, i.value)
    let weighted : ℚ := (found.map fun p => p.1 * (p.2 : ℚ)).sum
    let maxTaint : ℚ := found.foldl (fun m p => if p.1 > m then p.1 else m) 0
    let totalOut := ((tx.outputs.filter fun o => decide (o.value > 0)).map (·.value)).sum
    let denom := if totalOut > totalIn then totalOut else totalIn
    if denom ≤ 0 then (0, false)
    else
      let exposure := weighted / (denom : ℚ)
      (exposure, decide (exposure ≥ 1 / 4 ∨ maxTaint ≥ 85 / 100))

-- ===================================================================
-- Watch list (watchlist.go; the monitor is constructed Active=true)
-- ===================================================================

/-- `containsCLTVPattern` (scan even offsets for "b175"). -/
def containsCLTVAux : List Char → Bool
  | 'b' :: '1' :: '7' :: '5' :: _ => true
  | _ :: _ :: rest => containsCLTVAux rest
  | _ => false

/-- `containsCLTVPattern`. -/
def containsCLTVPattern (hexScript : String) : Bool := containsCLTVAux hexScript.data

/-- `WatchListMonitor.Evaluate` (silent payments, PayJoin v3, network
routing drift — a stub returning 0 — and JoinMarket bonds). -/
def watchListEvaluate (tx : Transaction) : ℕ :=
  let silent :=
    if tx.inputs.length = 1 ∧ tx.outputs.length ≥ 5 ∧
        tx.outputs.all (fun o => decide (detectAddressType o.address = "taproot"))
    then FlagIsSilentPayment else 0
  let payjoin :=
    if tx.inputs.length = 2 ∧ tx.outputs.length = 2 ∧
        ((tx.outputs.getD 0 default).value = (tx.inputs.getD 0 default).value ∨
         (tx.outputs.getD 1 default).value = (tx.inputs.getD 1 default).value)
    then FlagIsPayjoinSuspect else 0
  let joinmarket :=
    if tx.outputs.any (fun o =>
        decide (o.scriptPubKey.length ≠ 0 ∧
          ¬ (o.scriptPubKey.length = 66 ∧ strStarts o.scriptPubKey "0020") ∧
          containsCLTVPattern o.scriptPubKey = true))
    then FlagIsJoinMarketBond else 0
  silent ||| payjoin ||| joinmarket

-- ===================================================================
-- Post-mix helpers (ssmp.go)
-- ===================================================================

/-- `countEqualInputValues`. -/
def countEqualInputValues (inputs : List TxIn) : ℕ :=
  let vals := (inputs.filter fun i => decide (i.value > 0)).map (·.value)
  (keysIn vals).foldl (fun m v => if vals.count v > m then vals.count v else m) 0

/-- `detectBotBehavior`. -/
def detectBotBehavior (tx : Transaction) : Bool :=
  let s1 : ℕ :=
    if (tx.outputs.filter fun o => decide (o.value > 0 ∧ o.value % 1000000 = 0)).length ≥ 3
    then 1 else 0
  let s2 : ℕ := if tx.outputs.length > 20 then 1 else 0
  let s3 : ℕ :=
    if tx.outputs.length ≥ 3 ∧
        tx.outputs.all (fun o => decide (o.value = (tx.outputs.headD default).value))
    then 1 else 0
  decide (s1 + s2 + s3 ≥ 2)

-- ===================================================================
-- LLR engine (llr_engine.go)
-- ===================================================================

/-- Go zero-value evidence edge. -/
noncomputable instance : Inhabited (EvidenceEdge ℝ) :=
  ⟨{ edgeID := "", createdHeight := 0, srcNodeID := "", dstNodeID := "",
     edgeType := 0, llrScore := 0, dependencyGroup := 0, snapshotID := 0,
     auditHash := "" }⟩

/-- `ProbToLLR` (llr_engine.go): `log10(p/(1−p))` saturated at ±999. -/
noncomputable def ProbToLLR (p : ℝ) : ℝ :=
  if p ≥ 1 then 999
  else if p ≤ 0 then -999
  else Real.logb 10 (p / (1 - p))

/-- Go's `%f` verb (6 decimals) on a real number: sign, then the integer
and 6-digit fractional parts of the half-up rounding of `|x|·10⁶`.
(Go rounds the binary float half-to-even; the two renderings agree on
every non-tie, and the values formatted here are irrational.) -/
noncomputable def fmtF (x : ℝ) : String :=
  let n := (⌊|x| * 1000000 + 1 / 2⌋).toNat
  (if x < 0 then "-" else "") ++ natDec (n / 1000000) ++ "." ++ pad6 (n % 1000000)

/-- The audit-hash payload of `createEdge`:
`"%s|%s|%s|%d|%f|%d|%d"` over edgeID, src, dst, edgeType, llr, depGroup,
CurrentSnapshotID. -/
noncomputable def auditPayload (edgeID src dst : String) (edgeType : ℕ) (llr : ℝ)
    (depGroup : ℕ) : String :=
  edgeID ++ "|" ++ src ++ "|" ++ dst ++ "|" ++ natDec edgeType ++ "|" ++
    fmtF llr ++ "|" ++ natDec depGroup ++ "|" ++ natDec CurrentSnapshotID

/-- `createEdge` (llr_engine.go).  The random `uuid.New()` is supplied by
the caller as `edgeID` (`AnalyzeTx` threads an injected id stream). -/
noncomputable def createEdge (edgeID src dst : String) (edgeType : ℕ) (llr : ℝ)
    (depGroup : ℕ) (height : ℤ) : EvidenceEdge ℝ :=
  { edgeID := edgeID
    createdHeight := height
    srcNodeID := src
    dstNodeID := dst
    edgeType := edgeType
    llrScore := llr
    dependencyGroup := depGroup
    snapshotID := CurrentSnapshotID
    auditHash := sha256Hex (auditPayload edgeID src dst edgeType llr depGroup) }

/-- `GenerateCIOHEdges` (llr_engine.go).  `ids` is the stream of uuids in
the order the Go code draws them: in the CoinJoin branch input `k` draws
ids `2k` and `2k+1`; otherwise edge `k` (for input `k+1`) draws id `k`. -/
noncomputable def GenerateCIOHEdges (ids : ℕ → String) (tx : Transaction)
    (isCoinJoin : Bool) (currentHeight : ℤ) : List (EvidenceEdge ℝ) :=
  if tx.inputs.length < 2 then []
  else if isCoinJoin then
    tx.inputs.enum.flatMap fun p =>
      [createEdge (ids (2 * p.1)) p.2.address "Mixer_Coordinator"
         EdgeTypeCIOHInvalidated (-(ProbToLLR 0.99)) DepGroupCoordination currentHeight,
       createEdge (ids (2 * p.1 + 1)) p.2.address "Mixer_Coordinator"
         EdgeTypeCoinjoinSuspected (-(ProbToLLR 0.85)) DepGroupCoordination currentHeight]
  else
    let primary := (tx.inputs.headD default).address
    let allSameType := (tx.inputs.drop 1).all fun i =>
      decide (detectAddressType i.address = detectAddressType primary)
    (tx.inputs.drop 1).enum.map fun p =>
      createEdge (ids p.1) primary p.2.address EdgeTypeCIOH
        (ProbToLLR (if allSameType then (0.95 : ℝ) else 0.60))
        DepGroupScriptHomogeneity currentHeight

/-- An edge with its random `edge_id` replaced by the canonical
placeholder `""` (the replacement the C8 spec sentence describes). -/
def scrubEdgeID {α : Type} (e : EvidenceEdge α) : EvidenceEdge α :=
  { e with edgeID := "" }

/-- An edge with both the random `edge_id` and the (id-dependent)
`audit_hash` replaced by the canonical placeholder `""`. -/
def scrubEdgeIDHash {α : Type} (e : EvidenceEdge α) : EvidenceEdge α :=
  { e with edgeID := "", auditHash := "" }

-- ===================================================================
-- Factor graph (factor_graph.go)
-- ===================================================================

/-- `classifyConfidence`. -/
def classifyConfidence {α : Type} [LinearOrderedField α] (llr : α) : String :=
  if |llr| > 2 then "high"
  else if |llr| > 1 then "medium"
  else if |llr| > 1 / 2 then "low"
  else "rejected"

/-- The (LLR, dependency-group) view of an edge — the only two fields
`EvaluateFactorGraph` reads. -/
def edgeCore {α : Type} (e : EvidenceEdge α) : α × ℕ := (e.llrScore, e.dependencyGroup)

/-- Group fusion: the LLR of maximum absolute value in a group,
first-element initialisation with a strict `>` scan as in the source. -/
def selMaxAbs {α : Type} [LinearOrderedField α] : List α → α
  | [] => 0
  | x :: rest => rest.foldl (fun m y => if |y| > |m| then y else m) x

/-- The body of `EvaluateFactorGraph` over the (LLR, group) views.
Groups are taken in first-occurrence order (the Go map ranging order is
unspecified, but every field of the result is order-independent: the
posterior is a sum, the discounts a sum, the factors a count). -/
def EvaluateFactorGraphCore {α : Type} [LinearOrderedField α]
    (cores : List (α × ℕ)) : InferenceResult α :=
  if cores.length = 0 then
    { posteriorLLR := 0, confidenceLevel := "rejected", discountedEdges := 0,
      totalEdges := 0, effectiveFactors := 0 }
  else
    let gs := keysIn (cores.map (·.2))
    let groupOf := fun g => (cores.filter fun c => decide (c.2 = g)).map (·.1)
    let posterior := (gs.map fun g => selMaxAbs (groupOf g)).sum
    let discounted := (gs.map fun g => (groupOf g).length - 1).sum
    { posteriorLLR := posterior
      confidenceLevel := classifyConfidence posterior
      discountedEdges := discounted
      totalEdges := cores.length
      effectiveFactors := gs.length }

/-- `EvaluateFactorGraph` (factor_graph.go). -/
def EvaluateFactorGraph {α : Type} [LinearOrderedField α]
    (edges : List (EvidenceEdge α)) : InferenceResult α :=
  EvaluateFactorGraphCore (edges.map edgeCore)

/-- `ComputeClusterPosterior` (factor_graph.go). -/
def ComputeClusterPosterior {α : Type} [LinearOrderedField α]
    (edges : List (EvidenceEdge α)) : Bool × α :=
  let r := EvaluateFactorGraph edges
  (decide (r.confidenceLevel = "high" ∨ r.confidenceLevel = "medium"), r.posteriorLLR)

-- ===================================================================
-- Cross-transaction evidence propagation (timing_analysis.go)
-- ===================================================================

/-- `EvidenceChainLink`. -/
structure EvidenceChainLink (α : Type) where
  txid : String
  fromAddr : String
  toAddr : String
  llr : α
  edgeType : ℕ
  hopNumber : ℕ

/-- `PropagatedEdge`. -/
structure PropagatedEdge (α : Type) where
  originalEdges : List (EvidenceChainLink α)
  totalLLR : α
  decayedLLR : α
  hops : ℕ
  sourceAddr : String
  sinkAddr : String
  confidence : α

/-- `LLRToProb` (timing_analysis.go): `10^llr/(1+10^llr)` saturated. -/
noncomputable def LLRToProb (llr : ℝ) : ℝ :=
  if llr > 10 then 0.999
  else if llr < -10 then 0.001
  else (10 : ℝ) ^ llr / (1 + (10 : ℝ) ^ llr)

/-- `math.Round` on a real (half away from zero). -/
noncomputable def realGoRound (x : ℝ) : ℤ :=
  if 0 ≤ x then ⌊x + 1 / 2⌋ else -⌊-x + 1 / 2⌋

/-- `math.Round(x*100)/100` on a real. -/
noncomputable def round2R (x : ℝ) : ℝ := (realGoRound (x * 100) : ℝ) / 100

/-- `math.Round(x*1000)/1000` on a real. -/
noncomputable def round3R (x : ℝ) : ℝ := (realGoRound (x * 1000) : ℝ) / 1000

/-- `PropagateEvidence` (timing_analysis.go). -/
noncomputable def PropagateEvidence (chain : List (EvidenceEdge ℝ)) (hopDecay : ℝ) :
    Option (PropagatedEdge ℝ) :=
  if chain.length < 2 then none
  else
    let hopDecay := if hopDecay ≤ 0 ∨ hopDecay > 1 then 0.76 else hopDecay
    let hops := chain.length
    if hops > 5 then none
    else
      let totalLLR := (chain.map (·.llrScore)).sum
      let links := chain.enum.map fun p =>
        ({ txid := p.2.edgeID, fromAddr := p.2.srcNodeID, toAddr := p.2.dstNodeID,
           llr := p.2.llrScore, edgeType := p.2.edgeType, hopNumber := p.1 + 1 } :
          EvidenceChainLink ℝ)
      let decayedLLR := totalLLR * hopDecay ^ (hops - 1)
      if decayedLLR < 0.5 then none
      else some
        { originalEdges := links
          totalLLR := round2R totalLLR
          decayedLLR := round2R decayedLLR
          hops := hops
          sourceAddr := (chain.headD default).srcNodeID
          sinkAddr := (chain.getD (chain.length - 1) default).dstNodeID
          confidence := round3R (LLRToProb decayedLLR) }

/-- `BuildTransitiveEdge` (timing_analysis.go).  The constructed edge
only sets src, dst, type, LLR and group; `SnapshotID` (with `EdgeID`,
`CreatedHeight`, `AuditHash`) is left at its Go zero value. -/
noncomputable def BuildTransitiveEdge (prop : Option (PropagatedEdge ℝ)) :
    EvidenceEdge ℝ :=
  match prop with
  | none => default
  | some p =>
      { edgeID := "", createdHeight := 0, srcNodeID := p.sourceAddr,
        dstNodeID := p.sinkAddr, edgeType := EdgeTypeTransitive,
        llrScore := p.decayedLLR, dependencyGroup := DepGroupNone,
        snapshotID := 0, auditHash := "" }

-- ===================================================================
-- Calibrated privacy score (exchange detection / calibration module)
-- ===================================================================

/-- `CalibratePrivacyScore`: recomputes the score from base 100 using
only the populated sub-results and flags, writes it (and possibly the
high-traceability flag) back into the result, and returns the
breakdown.  The incoming `privacyScore` is never read. -/
def CalibratePrivacyScore (res : PrivacyAnalysisResult) :
    ScoreBreakdown × PrivacyAnalysisResult :=
  let anonF : ℤ :=
    if res.anonSet ≥ 5 then min (2 * res.anonSet) 35
    else if res.anonSet ≤ 1 then -10 else 0
  let entF : ℤ :=
    match res.entropy with
    | none => 0
    | some er =>
        let ce := centiEntropy er.interpretations
        if ce ≥ 400 then ((min (4 * ce / 100) 25 : ℕ) : ℤ)
        else if ce ≤ 50 then -10 else 0
  let chgF : ℤ :=
    match res.changeOutput with
    | none => 0
    | some c => -(goTrunc (c.confidence * 25))
  let walF : ℤ :=
    if res.walletFamily ≠ "" ∧ res.walletFamily ≠ "unknown" then -15 else 0
  let peelF : ℤ :=
    match res.peelChain with
    | none => 0
    | some p => if p.isChain then -(goTrunc (p.confidence * 15)) else 0
  let dustF : ℤ :=
    match res.dustAnalysis with
    | none => 0
    | some d =>
        if d.intent = "consolidation" then -30
        else if d.intent = "surveillance" then -10 else 0
  let topoF : ℤ :=
    match res.topology with
    | none => 0
    | some t =>
        (if t.isHub then (-10 : ℤ) else 0) +
        (if t.shape = "peel-step" ∨ t.shape = "simple-payment" then (-15 : ℤ) else 0)
  let unmixF : ℤ :=
    match res.unmixResult with
    | none => 0
    | some u => if u.linkabilityScore > 0 then -(goTrunc (u.linkabilityScore * 30)) else 0
  let reuseF : ℤ := if res.heuristicFlags &&& FlagAddressReuse ≠ 0 then -40 else 0
  let score := 100 + anonF + entF + chgF + walF + peelF + dustF + topoF + unmixF + reuseF
  let score := if score < 0 then 0 else score
  let score := if score > 100 then 100 else score
  let traceability : ℚ := (ratRound ((1 - (score : ℚ) / 100) * 100) : ℚ) / 100
  let bd : ScoreBreakdown :=
    { baseScore := 100, anonSetFactor := anonF, entropyFactor := entF,
      changeDetection := chgF, walletLeakage := walF, peelChainPenalty := peelF,
      dustRisk := dustF, topologyPenalty := topoF, unmixPenalty := unmixF,
      addressReuse := reuseF, traceability := traceability }
  (bd,
   { res with
     privacyScore := score
     heuristicFlags :=
       if traceability ≥ 0.8 then res.heuristicFlags ||| FlagHighTraceability
       else res.heuristicFlags })


-- ===================================================================
-- The 30-step pipeline (ssmp.go AnalyzeTx), split by step group
-- ===================================================================

/-- STEP 1: the anon set (hardware CPU fallback beyond 15×15). -/
def analyzeAnonSet (tx : Transaction) : ℤ :=
  if tx.inputs.length > 15 ∨ tx.outputs.length > 15 then CalculateAnonSetHardware tx
  else CalculateAnonSet tx.inputs tx.outputs tx.fee tx.vsize

/-- STEP 2: CoinJoin gating condition. -/
def analyzeIsCj (tx : Transaction) : Bool :=
  decide (tx.inputs.length ≥ 5 ∧ tx.outputs.length ≥ 5 ∧ analyzeAnonSet tx ≥ 5)

/-- STEP 3: address reuse — any duplicate input address (empty included). -/
def analyzeHasReuse (tx : Transaction) : Bool :=
  decide (¬ (tx.inputs.map (·.address)).Nodup)

/-- STEP 5a condition: the Whirlpool structural fingerprint (this is
exactly when `FlagIsWhirlpoolStruct` is set; step 9 re-tests the bit). -/
def whirlpoolStructCond (tx : Transaction) : Bool :=
  analyzeIsCj tx &&
    decide (5 ≤ tx.inputs.length ∧ tx.inputs.length ≤ 8 ∧
      tx.outputs.length = tx.inputs.length) &&
    decide (analyzeAnonSet tx = (tx.inputs.length : ℤ))

/-- STEP 7 gate: change detection fires (non-CoinJoin, 2–5 outputs, and
the weighted vote reached an index). -/
def analyzeChangeFires (tx : Transaction) : Bool :=
  (!analyzeIsCj tx) &&
    decide (2 ≤ tx.outputs.length ∧ tx.outputs.length ≤ 5) &&
    decide ((DetectChangeOutput tx).changeIndex ≥ 0)

/-- STEP 16: the unmixing sub-result (CoinJoins only). -/
def analyzeUnmixOpt (tx : Transaction) : Option UnmixResult :=
  if analyzeIsCj tx then some (AnalyzeUnmixability tx (analyzeIsCj tx)) else none

/-- The heuristic flag word accumulated by steps 1–16. -/
def analyzeFlags16 (tx : Transaction) : ℕ :=
  let isCj := analyzeIsCj tx
  let f2 : ℕ := if isCj then FlagLikelyCollabConstruct else 0
  let f3 := if analyzeHasReuse tx then f2 ||| FlagAddressReuse else f2
  let f4 := tx.inputs.foldl
    (fun f i =>
      let t := detectAddressType i.address
      let f := if t = "segwit" ∨ t = "p2sh-segwit" then f ||| FlagIsSegWit else f
      if t = "taproot" then f ||| FlagIsTaproot ||| FlagHasSchnorrSig else f)
    f3
  let f5a := if whirlpoolStructCond tx then f4 ||| FlagIsWhirlpoolStruct else f4
  let outVals := tx.outputs.map (·.value)
  let equalGroups := ((keysIn outVals).filter fun v => decide (outVals.count v ≥ 2)).length
  let f5b :=
    if isCj = true ∧ tx.inputs.length ≥ 5 ∧ tx.outputs.length ≥ 10 ∧
        (equalGroups ≥ 3 ∨ (tx.inputs.length > 50 ∧ tx.outputs.length > 50))
    then f5a ||| FlagIsWasabiSuspect else f5a
  let f5 :=
    if isCj = false ∧ tx.inputs.length = 2 ∧ tx.outputs.length ≥ 2 ∧
        (tx.outputs.getD 0 default).value = (tx.inputs.getD 0 default).value
    then f5b ||| FlagIsPayjoinSuspect else f5b
  let f6 := f5 ||| watchListEvaluate tx
  let f7a := if analyzeChangeFires tx then f6 ||| FlagLikelyChange else f6
  let f7 :=
    if analyzeChangeFires tx = true ∧ (DetectChangeOutput tx).isRoundPayment = true
    then f7a ||| FlagHasRoundPayment else f7a
  let walletFP := DetectWalletFingerprint tx
  let f8a := if walletFP.isBIP69 then f7 ||| FlagIsBIP69 else f7
  let f8 := if walletFP.isConsolidation then f8a ||| FlagIsConsolidation else f8a
  let f10 :=
    if centiEntropy (ComputeBoltzmannEntropy tx).interpretations ≥ 400
    then f8 ||| FlagHighEntropy else f8
  let f11 :=
    if IsSuspiciousFeePattern (AnalyzeFeePattern tx)
    then f10 ||| FlagSuspiciousFeePattern else f10
  let f12 :=
    if (!isCj) && (DetectPeelChainStep tx isCj).isPeelStep
    then f11 ||| FlagIsPeelChain else f11
  let f13 :=
    if (AnalyzeTimingSignals tx).hasTimingAnomaly then f12 ||| FlagTimingAnomaly else f12
  let dustResult := DetectDustAttack tx
  let f14a := if dustResult.hasDustOutputs = true ∧ dustResult.intent = "surveillance"
              then f13 ||| FlagDustAttackSuspect else f13
  let f14 := if dustResult.hasDustInputs = true ∧ dustResult.intent = "consolidation"
             then f14a ||| FlagDustConsolidation else f14a
  let f15 := if (AnalyzeTopology tx).isHub then f14 ||| FlagIsHubTransaction else f14
  match analyzeUnmixOpt tx with
  | some u => if u.mixQuality = "weak" ∨ u.mixQuality = "broken"
              then f15 ||| FlagWeakMix else f15
  | none => f15

/-- The wallet family after steps 8/11/13 (step 8 writes a non-"unknown"
family over the zero value ""; the Go fee/timing fusions at steps 11 and
13 test `res.WalletFamily == "unknown"`, which is therefore never true —
mirrored verbatim). -/
def analyzeWalletFamily16 (tx : Transaction) : String :=
  let walletFP := DetectWalletFingerprint tx
  let wf8 := if walletFP.walletFamily ≠ "unknown" then walletFP.walletFamily else ""
  let wf11 :=
    if wf8 = "unknown" ∧ (AnalyzeFeePattern tx).walletHint ≠ "unknown"
    then (AnalyzeFeePattern tx).walletHint else wf8
  let timingWallet := InferWalletFromTiming (AnalyzeTimingSignals tx)
  if timingWallet ≠ "unknown" ∧ wf11 = "unknown" then timingWallet else wf11

/-- The result record as it enters step 17, with the accumulated ad-hoc
score injected as `preScore`. -/
def analyzeRes16 (preScore : ℤ) (tx : Transaction) : PrivacyAnalysisResult :=
  let changeResult := DetectChangeOutput tx
  { txid := tx.txid
    privacyScore := preScore
    anonSet := analyzeAnonSet tx
    heuristicFlags := analyzeFlags16 tx
    edges := []
    inference := none
    changeOutput :=
      if analyzeChangeFires tx then some
        { index := changeResult.changeIndex, confidence := changeResult.confidence,
          method := changeResult.method, isRoundPayment := changeResult.isRoundPayment }
      else none
    walletFamily := analyzeWalletFamily16 tx
    whirlpoolPool :=
      if analyzeFlags16 tx &&& FlagIsWhirlpoolStruct > 0 then
        match IdentifyWhirlpoolPool tx with
        | some info => info.poolID
        | none => ""
      else ""
    entropy := some (ComputeBoltzmannEntropy tx)
    feeAnalysis := some (AnalyzeFeePattern tx)
    peelChain :=
      if (!analyzeIsCj tx) && (DetectPeelChainStep tx (analyzeIsCj tx)).isPeelStep
      then BuildPeelChainResult (DetectPeelChainStep tx (analyzeIsCj tx)) else none
    dustAnalysis := some (DetectDustAttack tx)
    unmixResult := analyzeUnmixOpt tx
    topology := some (AnalyzeTopology tx)
    scoreBreakdown := none
    utxoAge := none
    valuePattern := none
    scriptInfo := none }

/-- Steps 17–21: calibration overwrite, UTXO age, value patterns,
script templates, and the post-calibration ±5 nudges. -/
def analyzeSteps1721 (tx : Transaction) (r16 : PrivacyAnalysisResult) :
    PrivacyAnalysisResult :=
  let cal := CalibratePrivacyScore r16
  let res17 := { cal.2 with scoreBreakdown := some cal.1 }
  let utxoAge := AnalyzeUTXOAge tx
  let res18 :=
    { res17 with utxoAge := some utxoAge
                 heuristicFlags :=
                   if utxoAge.hasAncientUTXO then res17.heuristicFlags ||| FlagAncientUTXO
                   else res17.heuristicFlags }
  let valueResult := AnalyzeValuePatterns tx
  let res19 :=
    { res18 with valuePattern := some valueResult
                 heuristicFlags :=
                   if valueResult.knownServiceFee ≠ "none"
                   then res18.heuristicFlags ||| FlagKnownServicePattern
                   else res18.heuristicFlags }
  let scriptResult := AnalyzeScriptTemplates tx
  let f20a := if scriptResult.hasMultisig then res19.heuristicFlags ||| FlagIsMultisig
              else res19.heuristicFlags
  let f20 := if scriptResult.hasOPReturn then f20a ||| FlagHasOPReturn else f20a
  let res20 := { res19 with scriptInfo := some scriptResult, heuristicFlags := f20 }
  let s21a := if utxoAge.holdingPattern = "ancient" then goMin 100 (res20.privacyScore + 5)
              else res20.privacyScore
  let s21 := if scriptResult.hasMultisig then s21a - 5 else s21a
  { res20 with privacyScore := s21 }

/-- STEP 22: the evidence graph and its factor-graph inference.  In the
source this assignment happens between steps 21 and 24, but steps 23–30
neither read nor write `Edges`/`Inference`, so the pipeline applies it
as the final operation (this is what makes determinism-modulo-edge-ids
provable by congruence). -/
noncomputable def attachEdges (edges : List (EvidenceEdge ℝ))
    (r : PrivacyAnalysisResult) : PrivacyAnalysisResult :=
  { r with edges := edges
           inference := if edges.length > 0 then some (EvaluateFactorGraph edges)
                        else none }

/-- Steps 24–26: post-mix flagging, lightning, coinbase attribution. -/
def analyzeSteps2426 (tx : Transaction)
    (r21 : PrivacyAnalysisResult) : PrivacyAnalysisResult :=
  let res22 := r21
  let post24 := (!analyzeIsCj tx) && decide (tx.inputs.length ≥ 2) &&
    decide (countEqualInputValues tx.inputs ≥ 2)
  let res24 :=
    if post24 then
      { res22 with heuristicFlags := res22.heuristicFlags ||| FlagPostMixLeakage
                   privacyScore :=
                     if res22.privacyScore - 10 < 0 then 0 else res22.privacyScore - 10 }
    else res22
  let res25 :=
    if (DetectLightningChannel tx).isLightningTx then
      { res24 with heuristicFlags := res24.heuristicFlags ||| FlagLightningChannel
                   privacyScore := goMin 100 (res24.privacyScore + 10) }
    else res24
  let cbResult := AnalyzeCoinbaseTx tx
  if cbResult.isCoinbase then
    { res25 with heuristicFlags := res25.heuristicFlags ||| FlagIsCoinbase
                 walletFamily :=
                   if cbResult.poolName ≠ "unknown" then "mining:" ++ cbResult.poolName
                   else res25.walletFamily }
  else res25

/-- Steps 27–30: migration nudges, consolidation, taint check, bot
behaviour. -/
def analyzeSteps2730 (taint : List (String × ℚ)) (tx : Transaction)
    (r26 : PrivacyAnalysisResult) : PrivacyAnalysisResult :=
  let migrationResult := DetectAddressMigration tx
  let s27a := if migrationResult.hasMixedTypes then r26.privacyScore - 3
              else r26.privacyScore
  let s27 := if migrationResult.migrationStage = "taproot-adopter" then goMin 100 (s27a + 5)
             else s27a
  let res27 := { r26 with privacyScore := s27 }
  let res28 :=
    if (AnalyzeConsolidation tx).isConsolidation then
      { res27 with heuristicFlags := res27.heuristicFlags ||| FlagStrategicConsolidation
                   privacyScore :=
                     if res27.privacyScore - 8 < 0 then 0 else res27.privacyScore - 8 }
    else res27
  let res29 :=
    if (CheckInputsForTaint taint tx).2 then
      { res28 with heuristicFlags := res28.heuristicFlags ||| FlagHighRisk
                   privacyScore :=
                     if res28.privacyScore - 15 < 0 then 0 else res28.privacyScore - 15 }
    else res28
  if detectBotBehavior tx then
    { res29 with heuristicFlags := res29.heuristicFlags ||| FlagBotBehavior }
  else res29

/-- The ad-hoc score accumulated by the pre-calibration steps 1–16 of
`AnalyzeTx` (base 100, CoinJoin boost, reuse −40, change/wallet/
consolidation/entropy/fee/peel penalties).  Step 17 feeds the result
record into `CalibratePrivacyScore`, which overwrites this value. -/
def adHocPreScore (tx : Transaction) : ℤ :=
  let isCj := analyzeIsCj tx
  let s2 : ℤ := if isCj then goMin 100 (100 + 40) else 100
  let s3 := if analyzeHasReuse tx then s2 - 40 else s2
  let s7 := if analyzeChangeFires tx
            then s3 - goTrunc ((DetectChangeOutput tx).confidence * 30) else s3
  let walletFP := DetectWalletFingerprint tx
  let s8 := if walletFP.walletFamily ≠ "unknown"
            then s7 - goTrunc (walletFP.confidence * 15) else s7
  let s8b := if walletFP.isConsolidation then s8 - 20 else s8
  let ce := centiEntropy (ComputeBoltzmannEntropy tx).interpretations
  let s10 :=
    if ce ≥ 400 then goMin 100 (s8b + ((3 * ce / 100 : ℕ) : ℤ))
    else if ce ≤ 50 ∧ isCj = false then s8b - 10
    else s8b
  let s11 := if IsSuspiciousFeePattern (AnalyzeFeePattern tx) then s10 - 5 else s10
  let peelCandidate := DetectPeelChainStep tx isCj
  if (!isCj) && peelCandidate.isPeelStep
  then s11 - goTrunc (peelCandidate.confidence * 20) else s11

/-- Steps 1–30 with the pre-calibration ad-hoc score injected as
`preScore` and the evidence edges supplied as a function of the CoinJoin
bit (`AnalyzeTx` passes `GenerateCIOHEdges`; abstracting it lets
determinism be stated over the random uuid stream). -/
noncomputable def AnalyzeTxFromPre (preScore : ℤ)
    (mkEdges : Bool → List (EvidenceEdge ℝ)) (taint : List (String × ℚ))
    (tx : Transaction) : PrivacyAnalysisResult :=
  attachEdges (mkEdges (analyzeIsCj tx))
    (analyzeSteps2730 taint tx
      (analyzeSteps2426 tx
        (analyzeSteps1721 tx (analyzeRes16 preScore tx))))

/-- `AnalyzeTx` (ssmp.go): the full pipeline.  `ids` is the injected
uuid stream for `createEdge` and `taint` the global taint map. -/
noncomputable def AnalyzeTx (ids : ℕ → String) (taint : List (String × ℚ))
    (tx : Transaction) : PrivacyAnalysisResult :=
  AnalyzeTxFromPre (adHocPreScore tx) (fun cj => GenerateCIOHEdges ids tx cj 0) taint tx

/-- The pipeline with every pre-calibration score mutation removed: the
score entering step 17 is the untouched base 100. -/
noncomputable def AnalyzeTxCalibratedOnly (ids : ℕ → String) (taint : List (String × ℚ))
    (tx : Transaction) : PrivacyAnalysisResult :=
  AnalyzeTxFromPre 100 (fun cj => GenerateCIOHEdges ids tx cj 0) taint tx

/-- An analysis result with every edge's random `edge_id` replaced by
the canonical placeholder. -/
def scrubResultIDs (r : PrivacyAnalysisResult) : PrivacyAnalysisResult :=
  { r with edges := r.edges.map scrubEdgeID }

/-- An analysis result with every edge's `edge_id` AND `audit_hash`
replaced by the canonical placeholder. -/
def scrubResultIDsHashes (r : PrivacyAnalysisResult) : PrivacyAnalysisResult :=
  { r with edges := r.edges.map scrubEdgeIDHash }

-- ===================================================================
-- Shadow evaluator (internal/shadow/evaluator.go)
-- ===================================================================

/-- `Evaluator.AdjustedRandIndex` (evaluator.go): the MVP stub — the
arguments (cluster maps, as association lists) are ignored and the
constant mock score is returned. -/
def AdjustedRandIndex (_prodClusters _shadowClusters : List (String × ℤ)) : ℚ :=
  0.985

/-- `Evaluator.VariationOfInformation` (evaluator.go): the MVP stub. -/
def VariationOfInformation (_prodClusters _shadowClusters : List (String × ℤ)) : ℚ :=
  0.042

/-- Modelled from the spec (shadow metrics): the ARI formula
`(Σ C(n_ij,2) − E) / (M − E)` over two integer-label vectors, with
`E = ΣC(a_i,2)·ΣC(b_j,2)/C(n,2)`, `M = (ΣC(a_i,2)+ΣC(b_j,2))/2`, and
1.0 returned when `|M−E| < 1e-12`. -/
def specARI (pred gt : List ℤ) : ℚ :=
  let n := pred.length
  let pairs := pred.zip gt
  let sumC2 := fun (l : List ℕ) => (l.map fun c => (Nat.choose c 2 : ℚ)).sum
  let index := sumC2 ((keysIn pairs).map fun p => pairs.count p)
  let sumA := sumC2 ((keysIn pred).map fun a => pred.count a)
  let sumB := sumC2 ((keysIn gt).map fun b => gt.count b)
  let expected := sumA * sumB / (Nat.choose n 2 : ℚ)
  let maxIndex := (sumA + sumB) / 2
  if |maxIndex - expected| < 1 / 1000000000000 then 1
  else (index - expected) / (maxIndex - expected)

-- ===================================================================
-- Concrete inputs used by the claim analyses
-- ===================================================================

/-- An input with the given value (fixed segwit address). -/
def sampleIn (v : ℤ) : TxIn :=
  { txid := "t", vout := 0, value := v, address := "bc1qx", scriptSig := "", sequence := 0 }

/-- An output with the given value (fixed segwit address). -/
def sampleOut (v : ℤ) : TxOut :=
  { value := v, address := "bc1qy", scriptPubKey := "" }

/-- A deterministic uuid stream (the decimal rendering of the draw index). -/
def decIds : ℕ → String := fun n => natDec n

/-- The transaction driving the privacy score below 0: address reuse,
a confidently detected change output, a samourai wallet fingerprint, a
dust-consolidation pattern and one interpretation (entropy 0) push the
step-17 calibrated score to 0; the unclamped step-21 multisig nudge
(−5, from the multisig scriptSig of the third input) and the unclamped
step-27 mixed-address-types nudge (−3) then drive it to −8. -/
def c1Tx : Transaction :=
  { txid := "c1tx"
    inputs :=
      [{ txid := "bb", vout := 0, value := 546, address := "1ReuseAddr",
         scriptSig := "", sequence := 4294967295 },
       { txid := "aa", vout := 0, value := 80000, address := "1ReuseAddr",
         scriptSig := "", sequence := 4294967295 },
       { txid := "cc", vout := 0, value := 70000, address := "bc1qthird",
         scriptSig := "5221aaaaaa52ae", sequence := 4294967295 }]
    outputs :=
      [{ value := 90000, address := "bc1qout0", scriptPubKey := "" },
       { value := 60000, address := "bc1qout1", scriptPubKey := "" },
       { value := 446, address := "1ReuseAddr", scriptPubKey := "" }]
    fee := 100, weight := 800, vsize := 200, lockTime := 0, version := 1,
    blockHeight := 0, blockTime := 0 }

/-- Identical cluster maps over six elements in three clusters
(the spec's S7 identical-partition vector as a map). -/
def c2Clusters : List (String × ℤ) :=
  [("a", 0), ("b", 0), ("c", 1), ("d", 1), ("e", 2), ("f", 2)]

/-- The S7 identical-partition label vector. -/
def c2Labels : List ℤ := [0, 0, 1, 1, 2, 2]

/-- One input (bailout is triggered by the output side). -/
def c3Inputs : List TxIn := [sampleIn 5000]

/-- Sixteen outputs with pairwise distinct values: the bailout's modal
multiplicity is 1 ("no equal outputs"). -/
def c3Outputs : List TxOut := (List.range 16).map fun k => sampleOut ((k + 1) * 1000)

/-- C4 counterexample inputs: two inputs of 6 sats. -/
def c4CexInputs : List TxIn := [sampleIn 6, sampleIn 6]

/-- C4 counterexample outputs: the modal value is 10 (three copies),
while 5 also appears twice — every input is ≥ 5, yet both inputs are
pruned against the modal denomination 10. -/
def c4CexOutputs : List TxOut :=
  [sampleOut 10, sampleOut 10, sampleOut 10, sampleOut 5, sampleOut 5]

/-- C4 witness inputs: both within [modal, modal + τ]. -/
def c4WitInputs : List TxIn := [sampleIn 10000, sampleIn 10400]

/-- C4/C5 witness outputs: two copies of 10000. -/
def c4WitOutputs : List TxOut := [sampleOut 10000, sampleOut 10000]

/-- C5 counterexample inputs: 10500 links on the fast path (target 500 ≤
τ = 1000), 19500 needs the escalation, which only succeeds with a
tolerance ≥ 500 — the code hands the DP lane the unfloored 43. -/
def c5Inputs : List TxIn := [sampleIn 10500, sampleIn 19500]

/-- C5 counterexample outputs. -/
def c5Outputs : List TxOut := [sampleOut 10000, sampleOut 10000]

/-- A three-input transaction for the C6 witness (mixed address types,
not a CoinJoin). -/
def c6Tx : Transaction :=
  { txid := "c6tx"
    inputs :=
      [{ txid := "t1", vout := 0, value := 1000, address := "bc1qa", scriptSig := "", sequence := 0 },
       { txid := "t2", vout := 0, value := 2000, address := "bc1qb", scriptSig := "", sequence := 0 },
       { txid := "t3", vout := 0, value := 3000, address := "1Legacy", scriptSig := "", sequence := 0 }]
    outputs := [sampleOut 5900]
    fee := 100, weight := 400, vsize := 100, lockTime := 0, version := 2,
    blockHeight := 0, blockTime := 0 }

/-- A two-edge evidence list exercising both dependency-group fusion and
independent addition for the C7 witness examples. -/
def c7Edges : List (EvidenceEdge ℚ) :=
  [{ edgeID := "x1", createdHeight := 0, srcNodeID := "A", dstNodeID := "B",
     edgeType := 1, llrScore := 1.28, dependencyGroup := 0, snapshotID := 0, auditHash := "" },
   { edgeID := "x2", createdHeight := 0, srcNodeID := "A", dstNodeID := "C",
     edgeType := 2, llrScore := 0.95, dependencyGroup := 2, snapshotID := 0, auditHash := "" },
   { edgeID := "x3", createdHeight := 0, srcNodeID := "A", dstNodeID := "D",
     edgeType := 2, llrScore := -0.60, dependencyGroup := 2, snapshotID := 0, auditHash := "" }]

/-- A two-input single-output non-CoinJoin transaction whose single CIOH
edge (segwit-homogeneous inputs, LLR `ProbToLLR 0.95 = log10 19`) makes
the audit hash depend on the drawn edge id. -/
def c8Tx : Transaction :=
  { txid := "c8tx"
    inputs :=
      [{ txid := "t1", vout := 0, value := 1000, address := "bc1qa", scriptSig := "", sequence := 0 },
       { txid := "t2", vout := 0, value := 2000, address := "bc1qb", scriptSig := "", sequence := 0 }]
    outputs := [{ value := 2900, address := "bc1qc", scriptPubKey := "" }]
    fee := 100, weight := 400, vsize := 100, lockTime := 0, version := 2,
    blockHeight := 0, blockTime := 0 }

/-- A uuid stream drawing "a" every time. -/
def idsA : ℕ → String := fun _ => "a"

/-- A uuid stream drawing "b" every time. -/
def idsB : ℕ → String := fun _ => "b"

/-- First hop of a two-hop evidence chain (LLR 2). -/
noncomputable def c9Edge1 : EvidenceEdge ℝ :=
  { edgeID := "e1", createdHeight := 0, srcNodeID := "A", dstNodeID := "B",
    edgeType := 1, llrScore := 2, dependencyGroup := 1,
    snapshotID := CurrentSnapshotID, auditHash := "" }

/-- Second hop of the chain (LLR 1; decayed LLR 3·0.76 = 2.28 ≥ 0.5, so
propagation emits a transitive edge). -/
noncomputable def c9Edge2 : EvidenceEdge ℝ :=
  { edgeID := "e2", createdHeight := 0, srcNodeID := "B", dstNodeID := "C",
    edgeType := 1, llrScore := 1, dependencyGroup := 1,
    snapshotID := CurrentSnapshotID, auditHash := "" }

/-- The two-hop chain handed to `PropagateEvidence`. -/
noncomputable def c9Chain : List (EvidenceEdge ℝ) := [c9Edge1, c9Edge2]

-- ===================================================================
-- PART II: theorems
-- ===================================================================

-- General helper lemmas
theorem keysIn_aux_mem {α : Type} [DecidableEq α] (l : List α) :
    ∀ (acc : List α) (x : α),
      (x ∈ l.foldl (fun acc g => if g ∈ acc then acc else acc ++ [g]) acc) ↔
        x ∈ acc ∨ x ∈ l := by
  induction l with
  | nil => intro acc x; simp
  | cons a t ih =>
      intro acc x
      simp only [List.foldl_cons]
      rw [ih]
      by_cases h : a ∈ acc
      · rw [if_pos h]
        simp only [List.mem_cons]
        constructor
        · tauto
        · rintro (hx | rfl | hx)
          · exact Or.inl hx
          · exact Or.inl h
          · exact Or.inr hx
      · rw [if_neg h]
        simp only [List.mem_append, List.mem_cons, List.mem_singleton,
          List.not_mem_nil, or_false]
        tauto

theorem keysIn_mem {α : Type} [DecidableEq α] (l : List α) (x : α) :
    x ∈ keysIn l ↔ x ∈ l := by
  unfold keysIn
  rw [keysIn_aux_mem]
  simp

theorem keysIn_aux_nodup {α : Type} [DecidableEq α] (l : List α) :
    ∀ acc : List α, acc.Nodup →
      (l.foldl (fun acc g => if g ∈ acc then acc else acc ++ [g]) acc).Nodup := by
  induction l with
  | nil => intro acc h; simpa using h
  | cons a t ih =>
      intro acc h
      simp only [List.foldl_cons]
      apply ih
      by_cases ha : a ∈ acc
      · simpa [if_pos ha] using h
      · rw [if_neg ha, ← List.concat_eq_append]
        exact h.concat ha

theorem keysIn_nodup {α : Type} [DecidableEq α] (l : List α) : (keysIn l).Nodup :=
  keysIn_aux_nodup l [] List.nodup_nil

theorem keysIn_perm_dedup {α : Type} [DecidableEq α] (l : List α) :
    (keysIn l).Perm l.dedup := by
  rw [List.perm_ext_iff_of_nodup (keysIn_nodup l) l.nodup_dedup]
  intro x
  rw [keysIn_mem, List.mem_dedup]

theorem sum_count_keysIn {α : Type} [DecidableEq α] (l : List α) :
    (((keysIn l).map fun x => l.count x).sum) = l.length := by
  have hp : ((keysIn l).map fun x => l.count x).Perm (l.dedup.map fun x => l.count x) :=
    (keysIn_perm_dedup l).map _
  rw [hp.sum_eq]
  exact l.sum_map_count_dedup_eq_length

theorem foldAbs_spec {α : Type} [LinearOrderedField α] :
    ∀ (rest : List α) (x : α),
      (rest.foldl (fun m y => if |y| > |m| then y else m) x) ∈ x :: rest ∧
      ∀ y ∈ x :: rest, |y| ≤ |rest.foldl (fun m y => if |y| > |m| then y else m) x| := by
  intro rest
  induction rest with
  | nil =>
      intro x
      refine ⟨by simp, ?_⟩
      intro y hy
      simp only [List.mem_singleton] at hy
      simp [hy]
  | cons b t ih =>
      intro x
      simp only [List.foldl_cons]
      rcases ih (if |b| > |x| then b else x) with ⟨h1, h2⟩
      constructor
      · rcases List.mem_cons.mp h1 with h | h
        · rw [h]
          split_ifs with hb
          · exact List.mem_cons_of_mem _ (List.mem_cons_self _ _)
          · exact List.mem_cons_self _ _
        · exact List.mem_cons_of_mem _ (List.mem_cons_of_mem _ h)
      · intro y hy
        rcases List.mem_cons.mp hy with rfl | hy2
        · have hx : |y| ≤ |if |b| > |y| then b else y| := by
            split_ifs with hb
            · exact le_of_lt hb
            · exact le_refl _
          exact le_trans hx (h2 _ (List.mem_cons_self _ _))
        · rcases List.mem_cons.mp hy2 with rfl | hy3
          · have hx : |y| ≤ |if |y| > |x| then y else x| := by
              split_ifs with hb
              · exact le_refl _
              · exact not_lt.mp hb
            exact le_trans hx (h2 _ (List.mem_cons_self _ _))
          · exact h2 y (List.mem_cons_of_mem _ hy3)

theorem selMaxAbs_spec {α : Type} [LinearOrderedField α] (l : List α) (h : l ≠ []) :
    selMaxAbs l ∈ l ∧ ∀ y ∈ l, |y| ≤ |selMaxAbs l| := by
  match l, h with
  | x :: rest, _ => exact foldAbs_spec rest x

theorem length_le_sum_map {α : Type} (l : List α) (f : α → ℕ)
    (h : ∀ x ∈ l, 1 ≤ f x) : l.length ≤ (l.map f).sum := by
  induction l with
  | nil => simp
  | cons a t ih =>
      have ha := h a (by simp)
      have ht := ih fun x hx => h x (by simp [hx])
      simp only [List.map_cons, List.sum_cons, List.length_cons]
      omega

theorem sum_sub_ones {α : Type} (l : List α) (f : α → ℕ)
    (h : ∀ x ∈ l, 1 ≤ f x) :
    (l.map fun x => f x - 1).sum = (l.map f).sum - l.length := by
  induction l with
  | nil => simp
  | cons a t ih =>
      have ha := h a (by simp)
      have ht := ih fun x hx => h x (by simp [hx])
      have hs := length_le_sum_map t f fun x hx => h x (by simp [hx])
      simp only [List.map_cons, List.sum_cons, List.length_cons]
      omega

-- C7 machinery and claim theorem
theorem efg_val {α : Type} [LinearOrderedField α] (edges : List (EvidenceEdge α))
    (hne : edges ≠ []) :
    EvaluateFactorGraph edges =
      { posteriorLLR := ((keysIn ((edges.map edgeCore).map (·.2))).map fun g =>
          selMaxAbs (((edges.map edgeCore).filter fun c => decide (c.2 = g)).map (·.1))).sum
        confidenceLevel := classifyConfidence (((keysIn ((edges.map edgeCore).map (·.2))).map fun g =>
          selMaxAbs (((edges.map edgeCore).filter fun c => decide (c.2 = g)).map (·.1))).sum)
        discountedEdges := ((keysIn ((edges.map edgeCore).map (·.2))).map fun g =>
          (((edges.map edgeCore).filter fun c => decide (c.2 = g)).map (·.1)).length - 1).sum
        totalEdges := (edges.map edgeCore).length
        effectiveFactors := (keysIn ((edges.map edgeCore).map (·.2))).length } := by
  unfold EvaluateFactorGraph EvaluateFactorGraphCore
  rw [if_neg (by simpa using hne)]

theorem core_snd {α : Type} (edges : List (EvidenceEdge α)) :
    (edges.map edgeCore).map (·.2) = edges.map (·.dependencyGroup) := by
  rw [List.map_map]
  rfl

theorem mem_groupOf {α : Type} [LinearOrderedField α] (edges : List (EvidenceEdge α))
    (g : ℕ) (x : α) :
    x ∈ ((edges.map edgeCore).filter fun c => decide (c.2 = g)).map (·.1) ↔
      ∃ e ∈ edges, e.dependencyGroup = g ∧ e.llrScore = x := by
  simp only [List.mem_map, List.mem_filter, List.mem_map, edgeCore, decide_eq_true_eq]
  constructor
  · rintro ⟨c, ⟨⟨e, he, rfl⟩, hg⟩, rfl⟩
    exact ⟨e, he, hg, rfl⟩
  · rintro ⟨e, he, hg, rfl⟩
    exact ⟨(e.llrScore, e.dependencyGroup), ⟨⟨e, he, rfl⟩, hg⟩, rfl⟩


theorem efg_conf {α : Type} [LinearOrderedField α] (edges : List (EvidenceEdge α)) :
    (EvaluateFactorGraph edges).confidenceLevel
      = classifyConfidence (EvaluateFactorGraph edges).posteriorLLR := by
  by_cases hne : edges = []
  · subst hne
    show "rejected" = classifyConfidence 0
    unfold classifyConfidence
    rw [abs_zero, if_neg (by norm_num), if_neg (by norm_num), if_neg (by norm_num)]
  · rw [efg_val edges hne]

/-- Claim C7: for every edge list, `EvaluateFactorGraph` groups edges by
dependency group, selects within each group an edge of maximum |LLR|,
sums the selected LLRs into the posterior, discounts total − #groups
edges, reports #groups effective factors, classifies confidence by the
|posterior| thresholds 2 / 1 / 0.5, and `ComputeClusterPosterior`
clusters exactly at confidence medium or high. -/
theorem C7_factor_graph {α : Type} [LinearOrderedField α] (edges : List (EvidenceEdge α)) :
    ∃ sel : ℕ → α,
      (∀ g ∈ keysIn (edges.map (·.dependencyGroup)),
        (∃ e ∈ edges, e.dependencyGroup = g ∧ e.llrScore = sel g) ∧
        ∀ e ∈ edges, e.dependencyGroup = g → |e.llrScore| ≤ |sel g|) ∧
      (EvaluateFactorGraph edges).posteriorLLR
        = ((keysIn (edges.map (·.dependencyGroup))).map sel).sum ∧
      (EvaluateFactorGraph edges).totalEdges = edges.length ∧
      (EvaluateFactorGraph edges).effectiveFactors
        = (keysIn (edges.map (·.dependencyGroup))).length ∧
      (EvaluateFactorGraph edges).discountedEdges
        = edges.length - (keysIn (edges.map (·.dependencyGroup))).length ∧
      (2 < |(EvaluateFactorGraph edges).posteriorLLR| →
        (EvaluateFactorGraph edges).confidenceLevel = "high") ∧
      (|(EvaluateFactorGraph edges).posteriorLLR| ≤ 2 →
        1 < |(EvaluateFactorGraph edges).posteriorLLR| →
        (EvaluateFactorGraph edges).confidenceLevel = "medium") ∧
      (|(EvaluateFactorGraph edges).posteriorLLR| ≤ 1 →
        1 / 2 < |(EvaluateFactorGraph edges).posteriorLLR| →
        (EvaluateFactorGraph edges).confidenceLevel = "low") ∧
      (|(EvaluateFactorGraph edges).posteriorLLR| ≤ 1 / 2 →
        (EvaluateFactorGraph edges).confidenceLevel = "rejected") ∧
      ((ComputeClusterPosterior edges).1 = true ↔
        ((EvaluateFactorGraph edges).confidenceLevel = "high" ∨
         (EvaluateFactorGraph edges).confidenceLevel = "medium")) ∧
      (ComputeClusterPosterior edges).2 = (EvaluateFactorGraph edges).posteriorLLR := by
  have hthr :
      (2 < |(EvaluateFactorGraph edges).posteriorLLR| →
        (EvaluateFactorGraph edges).confidenceLevel = "high") ∧
      (|(EvaluateFactorGraph edges).posteriorLLR| ≤ 2 →
        1 < |(EvaluateFactorGraph edges).posteriorLLR| →
        (EvaluateFactorGraph edges).confidenceLevel = "medium") ∧
      (|(EvaluateFactorGraph edges).posteriorLLR| ≤ 1 →
        1 / 2 < |(EvaluateFactorGraph edges).posteriorLLR| →
        (EvaluateFactorGraph edges).confidenceLevel = "low") ∧
      (|(EvaluateFactorGraph edges).posteriorLLR| ≤ 1 / 2 →
        (EvaluateFactorGraph edges).confidenceLevel = "rejected") := by
    rw [efg_conf edges]
    unfold classifyConfidence
    refine ⟨fun h => ?_, fun h1 h2 => ?_, fun h1 h2 => ?_, fun h1 => ?_⟩
    · rw [if_pos h]
    · rw [if_neg (not_lt.mpr h1), if_pos h2]
    · rw [if_neg (by linarith), if_neg (not_lt.mpr h1), if_pos h2]
    · rw [if_neg (by linarith), if_neg (by linarith), if_neg (not_lt.mpr h1)]
  have hccp1 : (ComputeClusterPosterior edges).1 = true ↔
      ((EvaluateFactorGraph edges).confidenceLevel = "high" ∨
       (EvaluateFactorGraph edges).confidenceLevel = "medium") := by
    unfold ComputeClusterPosterior
    simp
  have hccp2 : (ComputeClusterPosterior edges).2 = (EvaluateFactorGraph edges).posteriorLLR := rfl
  by_cases hne : edges = []
  · subst hne
    refine ⟨fun _ => 0, ?_, ?_, rfl, rfl, rfl, hthr.1, hthr.2.1, hthr.2.2.1, hthr.2.2.2,
      hccp1, hccp2⟩
    · intro g hg
      simp [keysIn] at hg
    · simp [EvaluateFactorGraph, EvaluateFactorGraphCore, keysIn]
  · refine ⟨fun g => selMaxAbs (((edges.map edgeCore).filter fun c => decide (c.2 = g)).map (·.1)),
      ?_, ?_, ?_, ?_, ?_, hthr.1, hthr.2.1, hthr.2.2.1, hthr.2.2.2, hccp1, hccp2⟩
    · intro g hg
      have hg2 : g ∈ edges.map (·.dependencyGroup) := (keysIn_mem _ _).mp hg
      obtain ⟨e0, he0, he0g⟩ := List.mem_map.mp hg2
      have hx : e0.llrScore ∈ ((edges.map edgeCore).filter fun c => decide (c.2 = g)).map (·.1) :=
        (mem_groupOf edges g _).mpr ⟨e0, he0, he0g, rfl⟩
      have hLne : ((edges.map edgeCore).filter fun c => decide (c.2 = g)).map (·.1) ≠ [] :=
        List.ne_nil_of_mem hx
      rcases selMaxAbs_spec _ hLne with ⟨hmem, hbound⟩
      constructor
      · exact (mem_groupOf edges g _).mp hmem
      · intro e he heg
        exact hbound _ ((mem_groupOf edges g _).mpr ⟨e, he, heg, rfl⟩)
    · rw [efg_val edges hne]
      rw [core_snd]
    · rw [efg_val edges hne]
      simp
    · rw [efg_val edges hne]
      rw [core_snd]
    · rw [efg_val edges hne]
      simp only [core_snd]
      have hcnt : ∀ g, (((edges.map edgeCore).filter fun c => decide (c.2 = g)).map (·.1)).length
          = (edges.map (·.dependencyGroup)).count g := by
        intro g
        rw [List.length_map, ← core_snd edges]
        rw [List.count, List.countP_map, ← List.countP_eq_length_filter]
        apply List.countP_congr
        intro c _
        simp [Function.comp]
      have hpos : ∀ g ∈ keysIn (edges.map (·.dependencyGroup)),
          1 ≤ (edges.map (·.dependencyGroup)).count g := by
        intro g hg
        exact List.count_pos_iff.mpr ((keysIn_mem _ _).mp hg)
      calc ((keysIn (edges.map (·.dependencyGroup))).map fun g =>
              (((edges.map edgeCore).filter fun c => decide (c.2 = g)).map (·.1)).length - 1).sum
          = ((keysIn (edges.map (·.dependencyGroup))).map fun g =>
              (edges.map (·.dependencyGroup)).count g - 1).sum := by
            apply congrArg
            exact List.map_congr_left fun g _ => by rw [hcnt]
        _ = ((keysIn (edges.map (·.dependencyGroup))).map fun g =>
              (edges.map (·.dependencyGroup)).count g).sum
              - (keysIn (edges.map (·.dependencyGroup))).length := by
            exact sum_sub_ones _ _ hpos
        _ = (edges.map (·.dependencyGroup)).length
              - (keysIn (edges.map (·.dependencyGroup))).length := by
            rw [sum_count_keysIn]
        _ = edges.length - (keysIn (edges.map (·.dependencyGroup))).length := by
            rw [List.length_map]

-- C6 machinery and claim theorem
theorem pair_flatMap_length {α β : Type} (F G : ℕ × α → β) :
    ∀ (l : List α) (s : ℕ),
      ((List.enumFrom s l).flatMap fun p => [F p, G p]).length = 2 * l.length := by
  intro l
  induction l with
  | nil => intro s; rfl
  | cons a t ih =>
      intro s
      simp only [List.enumFrom, List.flatMap_cons, List.length_append, ih, List.length_cons,
        List.length_nil]
      omega

theorem enumFrom_flatMap_pair_getD {α β : Type} [Inhabited α] [Inhabited β]
    (F G : ℕ × α → β) :
    ∀ (l : List α) (s k : ℕ), k < l.length →
      ((List.enumFrom s l).flatMap fun p => [F p, G p]).getD (2 * k) default
          = F (s + k, l.getD k default) ∧
      ((List.enumFrom s l).flatMap fun p => [F p, G p]).getD (2 * k + 1) default
          = G (s + k, l.getD k default) := by
  intro l
  induction l with
  | nil => intro s k hk; simp at hk
  | cons a t ih =>
      intro s k hk
      cases k with
      | zero => simp [List.enumFrom]
      | succ k =>
          have hk2 : k < t.length := by simpa using hk
          have h2 : 2 * (k + 1) = 2 * k + 1 + 1 := by ring
          have h3 : 2 * (k + 1) + 1 = (2 * k + 1) + 1 + 1 := by ring
          rcases ih (s + 1) k hk2 with ⟨ih1, ih2⟩
          constructor
          · rw [h2]
            simp only [List.enumFrom, List.flatMap_cons, List.cons_append,
              List.nil_append, List.getD_cons_succ]
            rw [ih1, show s + 1 + k = s + (k + 1) from by omega]
          · rw [h3]
            simp only [List.enumFrom, List.flatMap_cons, List.cons_append,
              List.nil_append, List.getD_cons_succ]
            rw [ih2, show s + 1 + k = s + (k + 1) from by omega]

theorem enumFrom_map_getD {α β : Type} [Inhabited α] [Inhabited β] (G : ℕ × α → β) :
    ∀ (l : List α) (s k : ℕ), k < l.length →
      ((List.enumFrom s l).map G).getD k default = G (s + k, l.getD k default) := by
  intro l
  induction l with
  | nil => intro s k hk; simp at hk
  | cons a t ih =>
      intro s k hk
      cases k with
      | zero => simp [List.enumFrom]
      | succ k =>
          have hk2 : k < t.length := by simpa using hk
          simp only [List.enumFrom, List.map_cons, List.getD_cons_succ]
          rw [ih (s + 1) k hk2, show s + 1 + k = s + (k + 1) from by omega]

/-- Claim C6: `GenerateCIOHEdges` returns no edges below 2 inputs; for a
CoinJoin it emits per input `k` two Coordination-group edges (ids `2k`
and `2k+1`) from that input's address to "Mixer_Coordinator" with types
CIOHInvalidated (LLR −ProbToLLR 0.99) and CoinjoinSuspected (LLR
−ProbToLLR 0.85); otherwise it emits |inputs|−1 ScriptHomogeneity CIOH
edges from inputs[0] to inputs[k+1] with LLR ProbToLLR 0.95 when all
input address types agree and ProbToLLR 0.60 otherwise. -/
theorem C6_cioh_contract (ids : ℕ → String) (tx : Transaction) (cj : Bool) (h : ℤ) :
    (tx.inputs.length < 2 → GenerateCIOHEdges ids tx cj h = []) ∧
    (2 ≤ tx.inputs.length → cj = true →
      (GenerateCIOHEdges ids tx cj h).length = 2 * tx.inputs.length ∧
      ∀ k, k < tx.inputs.length →
        (GenerateCIOHEdges ids tx cj h).getD (2 * k) default =
          createEdge (ids (2 * k)) ((tx.inputs.getD k default).address) "Mixer_Coordinator"
            EdgeTypeCIOHInvalidated (-(ProbToLLR 0.99)) DepGroupCoordination h ∧
        (GenerateCIOHEdges ids tx cj h).getD (2 * k + 1) default =
          createEdge (ids (2 * k + 1)) ((tx.inputs.getD k default).address) "Mixer_Coordinator"
            EdgeTypeCoinjoinSuspected (-(ProbToLLR 0.85)) DepGroupCoordination h) ∧
    (2 ≤ tx.inputs.length → cj = false →
      (GenerateCIOHEdges ids tx cj h).length = tx.inputs.length - 1 ∧
      ∀ k, k < tx.inputs.length - 1 →
        (GenerateCIOHEdges ids tx cj h).getD k default =
          createEdge (ids k) ((tx.inputs.headD default).address)
            ((tx.inputs.getD (k + 1) default).address) EdgeTypeCIOH
            (ProbToLLR
              (if (tx.inputs.drop 1).all
                  (fun i => decide (detectAddressType i.address
                    = detectAddressType (tx.inputs.headD default).address))
                then (0.95 : ℝ) else 0.60))
            DepGroupScriptHomogeneity h) := by
  refine ⟨?_, ?_, ?_⟩
  · intro hlt
    unfold GenerateCIOHEdges
    rw [if_pos hlt]
  · intro hge hcj
    subst hcj
    unfold GenerateCIOHEdges
    rw [if_neg (by omega)]
    rw [if_pos rfl]
    constructor
    · rw [show tx.inputs.enum = List.enumFrom 0 tx.inputs from rfl]
      exact pair_flatMap_length _ _ tx.inputs 0
    · intro k hk
      rw [show tx.inputs.enum = List.enumFrom 0 tx.inputs from rfl]
      have := enumFrom_flatMap_pair_getD
        (fun p => createEdge (ids (2 * p.1)) p.2.address "Mixer_Coordinator"
          EdgeTypeCIOHInvalidated (-(ProbToLLR 0.99)) DepGroupCoordination h)
        (fun p => createEdge (ids (2 * p.1 + 1)) p.2.address "Mixer_Coordinator"
          EdgeTypeCoinjoinSuspected (-(ProbToLLR 0.85)) DepGroupCoordination h)
        tx.inputs 0 k hk
      simpa using this
  · intro hge hcj
    subst hcj
    unfold GenerateCIOHEdges
    rw [if_neg (by omega)]
    simp only [Bool.false_eq_true, if_false]
    constructor
    · simp [List.enumFrom_length]
    · intro k hk
      have hk2 : k < (tx.inputs.drop 1).length := by
        simpa using hk
      rw [show (tx.inputs.drop 1).enum = List.enumFrom 0 (tx.inputs.drop 1) from rfl]
      have := enumFrom_map_getD
        (fun p => createEdge (ids p.1) ((tx.inputs.headD default).address) p.2.address
          EdgeTypeCIOH
          (ProbToLLR
            (if (tx.inputs.drop 1).all
                (fun i => decide (detectAddressType i.address
                  = detectAddressType (tx.inputs.headD default).address))
              then (0.95 : ℝ) else 0.60))
          DepGroupScriptHomogeneity h)
        (tx.inputs.drop 1) 0 k hk2
      rw [show (0 : ℕ) + k = k from by omega] at this
      have hd : (tx.inputs.drop 1).getD k default = tx.inputs.getD (k + 1) default := by
        rw [List.getD, List.getD, List.get?_drop, Nat.add_comm 1 k]
      rw [hd] at this
      exact this

/-- Witness for claim C6 at a concrete three-input transaction, both for
the CoinJoin and the standard branch. -/
theorem C6_cioh_contract_witness :
    2 ≤ c6Tx.inputs.length ∧
    (GenerateCIOHEdges decIds c6Tx false 0).length = c6Tx.inputs.length - 1 ∧
    (GenerateCIOHEdges decIds c6Tx true 0).length = 2 * c6Tx.inputs.length ∧
    (GenerateCIOHEdges decIds c6Tx false 0).getD 0 default =
      createEdge (decIds 0) ((c6Tx.inputs.headD default).address)
        ((c6Tx.inputs.getD 1 default).address) EdgeTypeCIOH
        (ProbToLLR
          (if (c6Tx.inputs.drop 1).all
              (fun i => decide (detectAddressType i.address
                = detectAddressType (c6Tx.inputs.headD default).address))
            then (0.95 : ℝ) else 0.60))
        DepGroupScriptHomogeneity 0 ∧
    (GenerateCIOHEdges decIds c6Tx true 0).getD 2 default =
      createEdge (decIds 2) ((c6Tx.inputs.getD 1 default).address) "Mixer_Coordinator"
        EdgeTypeCIOHInvalidated (-(ProbToLLR 0.99)) DepGroupCoordination 0 :=
  ⟨by decide,
   ((C6_cioh_contract decIds c6Tx false 0).2.2 (by decide) rfl).1,
   ((C6_cioh_contract decIds c6Tx true 0).2.1 (by decide) rfl).1,
   ((C6_cioh_contract decIds c6Tx false 0).2.2 (by decide) rfl).2 0 (by decide),
   (((C6_cioh_contract decIds c6Tx true 0).2.1 (by decide) rfl).2 1 (by decide)).1⟩

-- Solver lower bounds used by claim C4

/-- The DP-bitset lane never returns a negative count. -/
theorem dp_nonneg (i o : List ℤ) (t : ℤ) : 0 ≤ SolveDPBitset i o t := by
  unfold SolveDPBitset
  dsimp only
  split
  · exact le_refl 0
  · split
    · exact le_refl 0
    · exact Int.ofNat_nonneg _

/-- The CP-SAT lane never returns a negative count. -/
theorem cpsat_nonneg (i o : List ℤ) (t : ℤ) : 0 ≤ SolveCPSAT i o t := by
  unfold SolveCPSAT
  dsimp only
  split
  · exact le_refl 0
  · split
    · exact le_refl 0
    · exact Int.ofNat_nonneg _

/-- Claim C1: the pipeline does NOT keep the returned privacy score in
[0, 100] — on `c1Tx` (calibrated score 0, then the unclamped multisig
−5 and mixed-address-type −3 nudges) `AnalyzeTx` returns −8. -/
theorem C1_privacy_score_escapes_range :
    (AnalyzeTx decIds [] c1Tx).privacyScore = -8 ∧
    (AnalyzeTx decIds [] c1Tx).privacyScore < 0 := by
  with_unfolding_all decide

/-- Claim C2 (amended): `AdjustedRandIndex` and `VariationOfInformation`
are constant MVP stubs — they return 0.985 and 0.042 for every pair of
cluster maps, not the ARI/VI formulas. -/
theorem C2_shadow_metrics_constant : ∀ p g : List (String × ℤ),
    AdjustedRandIndex p g = 0.985 ∧ VariationOfInformation p g = 0.042 :=
  fun _ _ => ⟨rfl, rfl⟩

/-- Counterexample for claim C2: on the spec's identical partitions
([0,0,1,1,2,2] vs itself) the spec formula gives ARI 1 and VI 0, but
the code returns 0.985 and 0.042. -/
theorem C2_shadow_metrics_cex :
    specARI c2Labels c2Labels = 1 ∧
    AdjustedRandIndex c2Clusters c2Clusters ≠ specARI c2Labels c2Labels ∧
    VariationOfInformation c2Clusters c2Clusters ≠ 0 := by
  refine ⟨?_, ?_, ?_⟩ <;> with_unfolding_all decide

/-- Claim C3 (amended): with non-empty inputs and outputs, beyond the
15×15 budget `CalculateAnonSet` returns the modal output multiplicity
itself — it is NOT mapped to 0 when the multiplicity is below 2. -/
theorem C3_bailout_returns_multiplicity (inputs : List TxIn) (outputs : List TxOut)
    (fee vsize : ℤ) (h1 : inputs ≠ []) (h2 : outputs ≠ [])
    (h3 : inputs.length > 15 ∨ outputs.length > 15) :
    CalculateAnonSet inputs outputs fee vsize = (countEqualOutputs outputs : ℤ) := by
  unfold CalculateAnonSet
  rw [if_neg fun hc => hc.elim (fun h => h1 (List.length_eq_zero.mp h))
        (fun h => h2 (List.length_eq_zero.mp h)),
      if_pos h3]

/-- Witness for claim C3 at one input and sixteen outputs. -/
theorem C3_bailout_returns_multiplicity_witness :
    c3Inputs ≠ [] ∧ c3Outputs.length > 15 ∧
    CalculateAnonSet c3Inputs c3Outputs 0 512 = (countEqualOutputs c3Outputs : ℤ) :=
  ⟨by decide, by decide,
   C3_bailout_returns_multiplicity c3Inputs c3Outputs 0 512 (by decide) (by decide) (by decide)⟩

/-- Counterexample for claim C3: sixteen pairwise-distinct outputs have
modal multiplicity 1, and the bailout returns 1 — not the 0 the spec
prescribes for multiplicities below 2. -/
theorem C3_bailout_cex :
    countEqualOutputs c3Outputs = 1 ∧ CalculateAnonSet c3Inputs c3Outputs 0 512 = 1 := by
  with_unfolding_all decide

/-- Claim C4 (amended): within the 15×15 budget, if the modal output
multiplicity is ≥ 2 and every input value lies within [modal value,
modal value + τ] (τ the fast-path tolerance), then the anon set is at
least min(multiplicity, |inputs|).  The claim's original hypothesis —
merely every input ≥ the duplicated value — is refuted by
`C4_anonset_cex`. -/
theorem C4_anonset_lower_bound (inputs : List TxIn) (outputs : List TxOut) (fee vsize : ℤ)
    (hne : inputs ≠ []) (hil : inputs.length ≤ 15) (hol : outputs.length ≤ 15)
    (hk : 2 ≤ (modalOutput outputs).2)
    (hb : ∀ i ∈ inputs, (modalOutput outputs).1 ≤ i.value ∧
          i.value ≤ (modalOutput outputs).1 + fastTau fee vsize) :
    min ((modalOutput outputs).2 : ℤ) (inputs.length : ℤ)
      ≤ CalculateAnonSet inputs outputs fee vsize := by
  have hone : outputs ≠ [] := by
    intro h
    rw [h] at hk
    exact absurd hk (by decide)
  have hA : ¬(inputs.length = 0 ∨ outputs.length = 0) := by
    rintro (h | h)
    exacts [hne (List.length_eq_zero.mp h), hone (List.length_eq_zero.mp h)]
  have hB : ¬(inputs.length > 15 ∨ outputs.length > 15) := by omega
  have hC : ¬((modalOutput outputs).2 ≤ 1) := by omega
  have hfil : (inputs.map (·.value)).filter
      (fun v => decide (¬ v < (modalOutput outputs).1)) = inputs.map (·.value) := by
    apply List.filter_eq_self.mpr
    intro v hv
    obtain ⟨i, hi, rfl⟩ := List.mem_map.mp hv
    simpa using not_lt.mpr (hb i hi).1
  have hcnt : List.countP (fun inVal =>
      if inVal < (modalOutput outputs).1 then false
      else if inVal - (modalOutput outputs).1 ≤ fastTau fee vsize ∧
              0 ≤ inVal - (modalOutput outputs).1 then true
      else hasMatchingInputSubsetMitM (outputs.map (·.value))
        (inVal - (modalOutput outputs).1) (fastTau fee vsize))
      (inputs.map (·.value)) = inputs.length := by
    rw [show inputs.length = (inputs.map (·.value)).length from (List.length_map _ _).symm]
    apply List.countP_eq_length.mpr
    intro v hv
    obtain ⟨i, hi, rfl⟩ := List.mem_map.mp hv
    rcases hb i hi with ⟨hlo, hhi⟩
    rw [if_neg (not_lt.mpr hlo),
        if_pos (by omega : i.value - (modalOutput outputs).1 ≤ fastTau fee vsize ∧
          0 ≤ i.value - (modalOutput outputs).1)]
  have hdp := dp_nonneg (inputs.map (·.value)) (outputs.map (·.value)) (escTau fee vsize)
  have hcp := cpsat_nonneg (inputs.map (·.value)) (outputs.map (·.value)) (escTau fee vsize)
  simp only [CalculateAnonSet, if_neg hA, if_neg hB, if_neg hC]
  rw [hfil, hcnt]
  omega

/-- Witness for claim C4: both inputs lie within [10000, 11000] of the
duplicated value 10000, and the solver reports an anon set of 2. -/
theorem C4_anonset_lower_bound_witness :
    2 ≤ (modalOutput c4WitOutputs).2 ∧
    (∀ i ∈ c4WitInputs, (modalOutput c4WitOutputs).1 ≤ i.value ∧
      i.value ≤ (modalOutput c4WitOutputs).1 + fastTau 0 512) ∧
    min ((modalOutput c4WitOutputs).2 : ℤ) (c4WitInputs.length : ℤ)
      ≤ CalculateAnonSet c4WitInputs c4WitOutputs 0 512 :=
  ⟨by decide, by with_unfolding_all decide,
   C4_anonset_lower_bound c4WitInputs c4WitOutputs 0 512 (by decide) (by decide)
     (by decide) (by decide) (by with_unfolding_all decide)⟩

/-- Counterexample for claim C4 as stated: the outputs hold two copies
of 5 and every input (value 6) is ≥ 5, yet the anon set is 0, not
min(2, 2) = 2 — the solver matches against the MODAL value 10 and
prunes both inputs. -/
theorem C4_anonset_cex :
    (2 ≤ (c4CexOutputs.map (·.value)).count 5 ∧ ∀ i ∈ c4CexInputs, 5 ≤ i.value) ∧
    c4CexInputs.length ≤ 15 ∧ c4CexOutputs.length ≤ 15 ∧
    CalculateAnonSet c4CexInputs c4CexOutputs 0 512 = 0 := by
  refine ⟨⟨by decide, by decide⟩, by decide, by decide, by with_unfolding_all decide⟩

/-- Claim C5 (amended): the fast-path tolerance is
max(1000, int64(feeRate·150)) and the CP-SAT lane re-floors its
tolerance at 1000 internally, but the tolerance handed to the
escalation lanes is the UNFLOORED truncation (see `C5_fee_tolerance_cex`
for the DP lane actually running with τ = 43 < 1000). -/
theorem C5_fee_tolerance_floors :
    (∀ fee vsize : ℤ, fastTau fee vsize = max 1000 (escTau fee vsize)) ∧
    ∀ (i o : List ℤ) (t : ℤ), SolveCPSAT i o t = SolveCPSAT i o (max 1000 t) := by
  constructor
  · intro fee vsize
    unfold fastTau escTau
    dsimp only
    split <;> omega
  · intro i o t
    unfold SolveCPSAT
    have h : (if t < 1000 then (1000 : ℤ) else t)
        = (if max 1000 t < 1000 then (1000 : ℤ) else max 1000 t) := by
      split <;> split <;> omega
    rw [h]

/-- Counterexample for claim C5: at feeRate 150/512 the escalation
tolerance is 43 (not max(1000, round(·)) = 1000); the DP lane run with
43 misses both linkages and the solver returns 1, while the same solver
with the spec's floored tolerance everywhere returns 2. -/
theorem C5_fee_tolerance_cex :
    escTau 150 512 = 43 ∧ fastTau 150 512 = 1000 ∧
    CalculateAnonSet c5Inputs c5Outputs 150 512 = 1 ∧
    CalculateAnonSetSpecTolerance c5Inputs c5Outputs 150 512 = 2 := by
  refine ⟨?_, ?_, ?_, ?_⟩ <;> with_unfolding_all decide

-- C8 determinism machinery

/-- Scrubbing id and hash of a created edge leaves a record independent
of the drawn uuid. -/
theorem scrub_createEdge (i s d : String) (t : ℕ) (l : ℝ) (g : ℕ) (h : ℤ) :
    scrubEdgeIDHash (createEdge i s d t l g h) =
      { edgeID := "", createdHeight := h, srcNodeID := s, dstNodeID := d,
        edgeType := t, llrScore := l, dependencyGroup := g,
        snapshotID := CurrentSnapshotID, auditHash := "" } := rfl

/-- The scrubbed edge list of `GenerateCIOHEdges` does not depend on
the uuid stream. -/
theorem gen_scrub (ids1 ids2 : ℕ → String) (tx : Transaction) (cj : Bool) (h : ℤ) :
    (GenerateCIOHEdges ids1 tx cj h).map scrubEdgeIDHash =
    (GenerateCIOHEdges ids2 tx cj h).map scrubEdgeIDHash := by
  unfold GenerateCIOHEdges
  split
  · rfl
  · split
    · simp [List.map_flatMap, scrub_createEdge]
    · simp [List.map_map, Function.comp, scrub_createEdge]

/-- The (LLR, group) views are insensitive to scrubbing. -/
theorem map_core_scrub (l : List (EvidenceEdge ℝ)) :
    (l.map scrubEdgeIDHash).map edgeCore = l.map edgeCore := by
  rw [List.map_map]
  exact List.map_congr_left fun e _ => rfl

/-- Factor-graph inference does not depend on the uuid stream. -/
theorem gen_efg (ids1 ids2 : ℕ → String) (tx : Transaction) (cj : Bool) (h : ℤ) :
    EvaluateFactorGraph (GenerateCIOHEdges ids1 tx cj h) =
    EvaluateFactorGraph (GenerateCIOHEdges ids2 tx cj h) := by
  unfold EvaluateFactorGraph
  rw [← map_core_scrub (GenerateCIOHEdges ids1 tx cj h),
      ← map_core_scrub (GenerateCIOHEdges ids2 tx cj h),
      gen_scrub ids1 ids2 tx cj h]

/-- The number of emitted edges does not depend on the uuid stream. -/
theorem gen_len (ids1 ids2 : ℕ → String) (tx : Transaction) (cj : Bool) (h : ℤ) :
    (GenerateCIOHEdges ids1 tx cj h).length = (GenerateCIOHEdges ids2 tx cj h).length := by
  have := congrArg List.length (gen_scrub ids1 ids2 tx cj h)
  simpa using this

/-- Scrubbing commutes with the final edge attachment. -/
theorem scrub_attach (e : List (EvidenceEdge ℝ)) (r : PrivacyAnalysisResult) :
    scrubResultIDsHashes (attachEdges e r) =
      { r with edges := e.map scrubEdgeIDHash
               inference := if e.length > 0 then some (EvaluateFactorGraph e) else none } := rfl

/-- Claim C8 (amended): `AnalyzeTx` is deterministic modulo the random
edge ids AND the audit hashes derived from them — after replacing every
edge's edge_id and audit_hash by the canonical placeholder, two runs on
the same transaction, taint state and ANY two uuid streams are
byte-identical.  Scrubbing the edge_id alone is not enough; see
`C8_edge_id_scrub_cex`. -/
theorem C8_determinism_modulo_edge_ids (ids1 ids2 : ℕ → String)
    (taint : List (String × ℚ)) (tx : Transaction) :
    scrubResultIDsHashes (AnalyzeTx ids1 taint tx) =
    scrubResultIDsHashes (AnalyzeTx ids2 taint tx) := by
  unfold AnalyzeTx AnalyzeTxFromPre
  rw [scrub_attach, scrub_attach,
      gen_scrub ids1 ids2 tx (analyzeIsCj tx) 0,
      gen_len ids1 ids2 tx (analyzeIsCj tx) 0,
      gen_efg ids1 ids2 tx (analyzeIsCj tx) 0]

-- Formatting of the hashed LLR log10(19) (claim C8 counterexample)

/-- Decimal lower witness for log10(19). -/
theorem pow_lo : (10 : ℕ) ^ 2557507 < 19 ^ 2000000 := by decide

/-- Decimal upper witness for log10(19). -/
theorem pow_hi : (19 : ℕ) ^ 2000000 < 10 ^ 2557509 := by decide

/-- Lower bound 2557507/2000000 ≤ log10(19). -/
theorem logb19_lo : (2557507 : ℝ) ≤ 2000000 * Real.logb 10 19 := by
  rw [show ((2000000 : ℝ) * Real.logb 10 19) = Real.logb 10 (19 ^ (2000000 : ℕ)) from
    (Real.logb_pow 10 19 2000000).symm]
  rw [Real.le_logb_iff_rpow_le (by norm_num : (1 : ℝ) < 10) (by positivity)]
  rw [show ((2557507 : ℝ)) = ((2557507 : ℕ) : ℝ) by norm_num, Real.rpow_natCast]
  exact_mod_cast le_of_lt pow_lo

/-- Upper bound log10(19) < 2557509/2000000. -/
theorem logb19_hi : 2000000 * Real.logb 10 19 < 2557509 := by
  rw [show ((2000000 : ℝ) * Real.logb 10 19) = Real.logb 10 (19 ^ (2000000 : ℕ)) from
    (Real.logb_pow 10 19 2000000).symm]
  rw [Real.logb_lt_iff_lt_rpow (by norm_num : (1 : ℝ) < 10) (by positivity)]
  rw [show ((2557509 : ℝ)) = ((2557509 : ℕ) : ℝ) by norm_num, Real.rpow_natCast]
  exact_mod_cast pow_hi

/-- The half-up rounding of log10(19) to six decimals is 1.278754. -/
theorem floor_log19 : ⌊Real.logb 10 19 * 1000000 + 1 / 2⌋ = (1278754 : ℤ) := by
  have lo := logb19_lo
  have hi := logb19_hi
  rw [Int.floor_eq_iff]
  constructor
  · push_cast
    nlinarith
  · push_cast
    nlinarith

/-- log10(19) is positive. -/
theorem logb19_pos : 0 < Real.logb 10 19 :=
  Real.logb_pos (by norm_num) (by norm_num)

/-- The CIOH confidence 0.95 maps to the LLR log10(19). -/
theorem probToLLR_095 : ProbToLLR 0.95 = Real.logb 10 19 := by
  unfold ProbToLLR
  rw [if_neg (by norm_num), if_neg (by norm_num)]
  norm_num

/-- Go renders the hashed LLR `%f` as "1.278754". -/
theorem fmtF_log19 : fmtF (ProbToLLR 0.95) = "1.278754" := by
  rw [probToLLR_095]
  unfold fmtF
  rw [abs_of_pos logb19_pos, if_neg (not_lt.mpr (le_of_lt logb19_pos)), floor_log19]
  decide

/-- Counterexample for claim C8 as stated: replacing ONLY the edge_id by
a canonical placeholder does not make two runs byte-identical — the
audit hash covers the random edge id, so runs drawing "a" vs "b"
produce different audit hashes. -/
theorem C8_edge_id_scrub_cex :
    scrubResultIDs (AnalyzeTx idsA [] c8Tx) ≠ scrubResultIDs (AnalyzeTx idsB [] c8Tx) := by
  intro hEq
  have h2 := congrArg (fun r => r.edges.map (fun e => e.auditHash)) hEq
  have hA : (scrubResultIDs (AnalyzeTx idsA [] c8Tx)).edges.map (fun e => e.auditHash)
      = [sha256Hex (auditPayload "a" "bc1qa" "bc1qb" EdgeTypeCIOH (ProbToLLR 0.95)
          DepGroupScriptHomogeneity)] := rfl
  have hB : (scrubResultIDs (AnalyzeTx idsB [] c8Tx)).edges.map (fun e => e.auditHash)
      = [sha256Hex (auditPayload "b" "bc1qa" "bc1qb" EdgeTypeCIOH (ProbToLLR 0.95)
          DepGroupScriptHomogeneity)] := rfl
  dsimp only at h2
  rw [hA, hB] at h2
  have h3 : sha256Hex (auditPayload "a" "bc1qa" "bc1qb" EdgeTypeCIOH (ProbToLLR 0.95)
      DepGroupScriptHomogeneity) = sha256Hex (auditPayload "b" "bc1qa" "bc1qb" EdgeTypeCIOH
      (ProbToLLR 0.95) DepGroupScriptHomogeneity) := by
    simpa using h2
  have hpA : auditPayload "a" "bc1qa" "bc1qb" EdgeTypeCIOH (ProbToLLR 0.95)
      DepGroupScriptHomogeneity = "a|bc1qa|bc1qb|1|1.278754|1|202602235" := by
    unfold auditPayload
    rw [fmtF_log19]
    decide
  have hpB : auditPayload "b" "bc1qa" "bc1qb" EdgeTypeCIOH (ProbToLLR 0.95)
      DepGroupScriptHomogeneity = "b|bc1qa|bc1qb|1|1.278754|1|202602235" := by
    unfold auditPayload
    rw [fmtF_log19]
    decide
  rw [hpA, hpB] at h3
  exact absurd h3 (by decide)

/-- Claim C9: the synthetic Transitive edge emitted for a propagated
multi-hop chain does NOT carry the engine's CurrentSnapshotID — the
constructor leaves SnapshotID at the Go zero value 0.  A two-hop chain
with decayed LLR 2.28 shows the path is reachable. -/
theorem C9_transitive_edge_snapshot_zero :
    (PropagateEvidence c9Chain 0.76).isSome = true ∧
    (∀ pe : PropagatedEdge ℝ, (BuildTransitiveEdge (some pe)).snapshotID = 0) ∧
    (0 : ℕ) ≠ CurrentSnapshotID := by
  refine ⟨?_, fun pe => rfl, by decide⟩
  unfold PropagateEvidence c9Chain c9Edge1 c9Edge2
  norm_num

/-- Claim C10: the returned result is independent of every pre-calibration
ad-hoc score adjustment — running the pipeline with the step 1–16 score
accumulator replaced by the constant base 100 yields the identical
result, because step 17's `CalibratePrivacyScore` never reads the
incoming score and overwrites it. -/
theorem C10_calibration_overwrites_prescore :
    (∀ ids taint tx, AnalyzeTx ids taint tx = AnalyzeTxCalibratedOnly ids taint tx) ∧
    ∀ (res : PrivacyAnalysisResult) (s : ℤ),
      CalibratePrivacyScore { res with privacyScore := s } = CalibratePrivacyScore res :=
  ⟨fun _ _ _ => rfl, fun _ _ => rfl⟩
